import Mathlib

/- Verification of the iron_cache key-value store: a shallow embedding of
   `src/storage.rs` (storage engine), `src/commands.rs` (command grammar) and
   the snapshot logic of `src/main.rs`, with theorems about the behaviour of
   the embedded operations. -/

set_option maxHeartbeats 1000000

namespace IronCache

/-- Value is the tagged union of the three value shapes
    (`enum Value` in storage.rs): a scalar string, a list (VecDeque,
    head of the Lean list = front of the deque), or a hash
    (HashMap modelled as an association list without duplicate keys). -/
inductive Value where
  | str (s : String)
  | list (l : List String)
  | hash (h : List (String × String))
  deriving DecidableEq, Repr

/-- StoreValue pairs a value with its optional absolute expiry timestamp
    in milliseconds (`struct StoreValue` in storage.rs). -/
structure StoreValue where
  data : Value
  expiry : Option Nat
  deriving DecidableEq, Repr

/-- Storage is the keyspace (HashMap String StoreValue, modelled as a
    function from keys to optional entries) together with the dirty flag
    (`struct Storage` in storage.rs). -/
structure Storage where
  data : String → Option StoreValue
  dirty : Bool

/-- Point update of the keyspace map: `HashMap::insert`. -/
def updateMap (m : String → Option StoreValue) (k : String) (v : StoreValue) :
    String → Option StoreValue :=
  fun k' => if k' = k then some v else m k'

/-- Point removal from the keyspace map: `HashMap::remove`. -/
def removeMap (m : String → Option StoreValue) (k : String) :
    String → Option StoreValue :=
  fun k' => if k' = k then none else m k'

/-- Lookup of a field in an association-list hash (`HashMap::get`). -/
def hfind : List (String × String) → String → Option String
  | [], _ => none
  | (k, v) :: t, f => if k = f then some v else hfind t f

/-- Insertion into an association-list hash (`HashMap::insert`): replaces
    the existing binding if the field is present, otherwise appends. -/
def hinsert : List (String × String) → String → String → List (String × String)
  | [], f, v => [(f, v)]
  | (k, w) :: t, f, v => if k = f then (k, v) :: t else (k, w) :: hinsert t f v

/-- Removal of a field from an association-list hash (`HashMap::remove`). -/
def hremove : List (String × String) → String → List (String × String)
  | [], _ => []
  | (k, w) :: t, f => if k = f then t else (k, w) :: hremove t f

/-- The shared wrong-type message of storage.rs. -/
def wrongTypeMsg : String :=
  "WRONGTYPE Operation against a key holding the wrong kind of value"

/-- Storage.new: the empty keyspace with a clear dirty flag. -/
def Storage.new : Storage :=
  { data := fun _ => none, dirty := false }

/-- Storage.set: computes the absolute expiry timestamp from the current
    time and the optional duration, inserts a scalar entry, marks dirty
    (`Storage::set` in storage.rs; `now` stands for the ambient
    `SystemTime::now()` in milliseconds). -/
def Storage.set (s : Storage) (key value : String) (expiry : Option Nat)
    (now : Nat) : Storage :=
  { data := updateMap s.data key
      { data := Value.str value, expiry := expiry.map (fun d => now + d) },
    dirty := true }

/-- Storage.get: returns the entry at a key after the lazy-expiry check;
    an entry whose expiry timestamp has passed is removed, the dirty flag
    is set and the read reports absence (`Storage::get` in storage.rs). -/
def Storage.get (s : Storage) (key : String) (now : Nat) :
    Option StoreValue × Storage :=
  match s.data key with
  | some sv =>
    match sv.expiry with
    | some t =>
      if now ≥ t then (none, { data := removeMap s.data key, dirty := true })
      else (some sv, s)
    | none => (some sv, s)
  | none => (none, s)

/-- Storage.remove: removes the entry at a key, returning it; the dirty
    flag is set only when something was removed (`Storage::remove`). -/
def Storage.remove (s : Storage) (key : String) :
    Option StoreValue × Storage :=
  match s.data key with
  | some sv => (some sv, { data := removeMap s.data key, dirty := true })
  | none => (none, s)

/-- Storage.lpush: auto-creates an empty list when the key is vacant
    (`entry().or_insert_with`), then prepends each value in argument order
    (`push_front` in a loop), marks dirty and returns the resulting
    length; a non-list entry fails with the wrong-type message and no
    mutation (`Storage::lpush`). -/
def Storage.lpush (s : Storage) (key : String) (values : List String) :
    Except String Nat × Storage :=
  match s.data key with
  | none =>
    let l := values.foldl (fun acc v => v :: acc) ([] : List String)
    (Except.ok l.length,
      { data := updateMap s.data key { data := Value.list l, expiry := none },
        dirty := true })
  | some sv =>
    match sv.data with
    | Value.list l =>
      let l2 := values.foldl (fun acc v => v :: acc) l
      (Except.ok l2.length,
        { data := updateMap s.data key
            { data := Value.list l2, expiry := sv.expiry },
          dirty := true })
    | _ => (Except.error wrongTypeMsg, s)

/-- Storage.rpush: like lpush but appends each value (`push_back` in a
    loop), preserving argument order (`Storage::rpush`). -/
def Storage.rpush (s : Storage) (key : String) (values : List String) :
    Except String Nat × Storage :=
  match s.data key with
  | none =>
    let l := values.foldl (fun acc v => acc ++ [v]) ([] : List String)
    (Except.ok l.length,
      { data := updateMap s.data key { data := Value.list l, expiry := none },
        dirty := true })
  | some sv =>
    match sv.data with
    | Value.list l =>
      let l2 := values.foldl (fun acc v => acc ++ [v]) l
      (Except.ok l2.length,
        { data := updateMap s.data key
            { data := Value.list l2, expiry := sv.expiry },
          dirty := true })
    | _ => (Except.error wrongTypeMsg, s)

/-- Index normalization of `Storage::lrange`: a negative index has the
    list length added, then the result is clamped to be at least 0 and
    cast to a natural number (`if i < 0 \x7b len + i \x7d else i`,
    `.max(0) as usize`). -/
def normIndex (i : Int) (len : Nat) : Nat :=
  (max (if i < 0 then (len : Int) + i else i) 0).toNat

/-- Storage.lrange: Ok none on a vacant key, wrong-type error on a
    non-list entry, otherwise the Redis-style inclusive slice after index
    normalization (`Storage::lrange`); it never mutates the storage. -/
def Storage.lrange (s : Storage) (key : String) (start stop : Int) :
    Except String (Option (List String)) × Storage :=
  match s.data key with
  | none => (Except.ok none, s)
  | some sv =>
    match sv.data with
    | Value.list l =>
      let start' := normIndex start l.length
      let stop' := normIndex stop l.length
      if start' ≥ l.length ∨ start' > stop' then (Except.ok (some []), s)
      else
        let stop2 := min stop' (l.length - 1)
        (Except.ok (some ((l.drop start').take (stop2 - start' + 1))), s)
    | _ => (Except.error wrongTypeMsg, s)

/-- Storage.hset: auto-creates an empty hash when the key is vacant, then
    inserts the field, reporting 1 for a new field and 0 for an overwrite,
    and marks dirty; a non-hash entry fails with the wrong-type message
    and no mutation (`Storage::hset`). -/
def Storage.hset (s : Storage) (key field value : String) :
    Except String Int × Storage :=
  match s.data key with
  | none =>
    (Except.ok 1,
      { data := updateMap s.data key
          { data := Value.hash (hinsert [] field value), expiry := none },
        dirty := true })
  | some sv =>
    match sv.data with
    | Value.hash h =>
      let result : Int := if (hfind h field).isSome then 0 else 1
      (Except.ok result,
        { data := updateMap s.data key
            { data := Value.hash (hinsert h field value), expiry := sv.expiry },
          dirty := true })
    | _ => (Except.error wrongTypeMsg, s)

/-- Storage.hget: Ok none on a vacant key, wrong-type error on a non-hash
    entry, otherwise the field lookup; never mutates (`Storage::hget`). -/
def Storage.hget (s : Storage) (key field : String) :
    Except String (Option String) × Storage :=
  match s.data key with
  | none => (Except.ok none, s)
  | some sv =>
    match sv.data with
    | Value.hash h => (Except.ok (hfind h field), s)
    | _ => (Except.error wrongTypeMsg, s)

/-- Storage.hdel: removes each named field that is present, counting the
    removals; the dirty flag is left untouched (`Storage::hdel`). -/
def Storage.hdel (s : Storage) (key : String) (fields : List String) :
    Except String Int × Storage :=
  match s.data key with
  | none => (Except.ok 0, s)
  | some sv =>
    match sv.data with
    | Value.hash h =>
      let r := fields.foldl
        (fun (p : Int × List (String × String)) f =>
          if (hfind p.2 f).isSome then (p.1 + 1, hremove p.2 f) else p)
        ((0 : Int), h)
      (Except.ok r.1,
        { data := updateMap s.data key
            { data := Value.hash r.2, expiry := sv.expiry },
          dirty := s.dirty })
    | _ => (Except.error wrongTypeMsg, s)

/-- Storage.hlen: 0 on a vacant key, wrong-type error on a non-hash
    entry, otherwise the field count; never mutates (`Storage::hlen`). -/
def Storage.hlen (s : Storage) (key : String) :
    Except String Nat × Storage :=
  match s.data key with
  | none => (Except.ok 0, s)
  | some sv =>
    match sv.data with
    | Value.hash h => (Except.ok h.length, s)
    | _ => (Except.error wrongTypeMsg, s)

/-- Storage.hgetall: Ok none on a vacant key, wrong-type error on a
    non-hash entry, otherwise the full mapping (`Storage::hgetall`). -/
def Storage.hgetall (s : Storage) (key : String) :
    Except String (Option (List (String × String))) × Storage :=
  match s.data key with
  | none => (Except.ok none, s)
  | some sv =>
    match sv.data with
    | Value.hash h => (Except.ok (some h), s)
    | _ => (Except.error wrongTypeMsg, s)

/-- Storage.clearDirtyFlag: resets the dirty flag
    (`Storage::clear_dirty_flag`). -/
def Storage.clearDirtyFlag (s : Storage) : Storage :=
  { s with dirty := false }

/-- Snapshot step of `save_snapshot` in main.rs: when the store is not
    dirty it returns without any I/O; otherwise it clears the dirty flag
    and serializes the keyspace to the backing file. The boolean records
    whether a file write was performed. -/
def saveSnapshot (s : Storage) : Bool × Storage :=
  if !s.dirty then (false, s)
  else (true, { s with dirty := false })

/-- Two consecutive snapshot invocations with no mutation in between; the
    natural number counts the underlying file writes performed. -/
def saveTwice (s : Storage) : Nat × Storage :=
  let r1 := saveSnapshot s
  let r2 := saveSnapshot r1.2
  ((if r1.1 then 1 else 0) + (if r2.1 then 1 else 0), r2.2)

/-- ParseError of commands.rs: an unrecognized command, or a recognized
    verb with a malformed argument list carrying a usage message. -/
inductive ParseError where
  | unknownCommand
  | invalidArgument (msg : String)
  deriving DecidableEq, Repr

/-- Command of commands.rs: the strongly typed result of parsing; the Set
    expiry is the duration in seconds. -/
inductive Command where
  | get (key : String)
  | set (key value : String) (expiry : Option Nat)
  | del (key : String)
  | lpush (key : String) (values : List String)
  | rpush (key : String) (values : List String)
  | lrange (key : String) (start stop : Int)
  | hset (key field value : String)
  | hget (key field : String)
  | hdel (key : String) (fields : List String)
  | hlen (key : String)
  | hgetall (key : String)
  | save
  deriving DecidableEq, Repr

instance : DecidableEq (Except ParseError Command) := fun x y =>
  match x, y with
  | Except.ok a, Except.ok b =>
    if h : a = b then Decidable.isTrue (congrArg Except.ok h)
    else Decidable.isFalse (fun hh => h (Except.ok.inj hh))
  | Except.error a, Except.error b =>
    if h : a = b then Decidable.isTrue (congrArg Except.error h)
    else Decidable.isFalse (fun hh => h (Except.error.inj hh))
  | Except.ok _, Except.error _ =>
    Decidable.isFalse (fun hh => Except.noConfusion hh)
  | Except.error _, Except.ok _ =>
    Decidable.isFalse (fun hh => Except.noConfusion hh)

/-- Digit-string evaluation shared by the numeric argument parsers:
    some value when every character is a decimal digit and there is at
    least one, none otherwise. -/
def digitsToNat : List Char → Option Nat
  | [] => none
  | cs =>
    if cs.all (fun c => c.isDigit) then
      some (cs.foldl (fun acc c => acc * 10 + (c.toNat - '0'.toNat)) 0)
    else none

/-- Rust `str::parse::<u64>`: an optional leading plus sign, then decimal
    digits, rejecting empty digit strings and values outside u64 range. -/
def parseU64 (s : String) : Option Nat :=
  let cs := match s.data with
    | '+' :: t => t
    | cs => cs
  match digitsToNat cs with
  | some n => if n < 2 ^ 64 then some n else none
  | none => none

/-- Rust `str::parse::<i64>`: an optional leading plus or minus sign,
    then decimal digits, rejecting values outside i64 range. -/
def parseI64 (s : String) : Option Int :=
  match s.data with
  | '+' :: t =>
    match digitsToNat t with
    | some n => if n ≤ 2 ^ 63 - 1 then some (n : Int) else none
    | none => none
  | '-' :: t =>
    match digitsToNat t with
    | some n => if n ≤ 2 ^ 63 then some (-(n : Int)) else none
    | none => none
  | cs =>
    match digitsToNat cs with
    | some n => if n ≤ 2 ^ 63 - 1 then some (n : Int) else none
    | none => none

/- Each match arm of `Command::parse` is embedded as a partial function
   from the token list to a result; `none` means the arm's pattern (or
   guard) does not match and control falls to the next arm. The arms are
   listed in source order below. -/

/-- Arm for pattern `["SET" | "set", key, value, "EX" | "ex", seconds]`. -/
def armSetEx : List String → Option (Except ParseError Command)
  | [v, key, value, e, seconds] =>
    if (v = "SET" ∨ v = "set") ∧ (e = "EX" ∨ e = "ex") then
      some (match parseU64 seconds with
        | some n => Except.ok (Command.set key value (some n))
        | none => Except.error (ParseError.invalidArgument
            "Expiry time must be a positive integer."))
    else none
  | _ => none

/-- Arm for pattern `["SET" | "set", key, value]`. -/
def armSet3 : List String → Option (Except ParseError Command)
  | [v, key, value] =>
    if v = "SET" ∨ v = "set" then
      some (Except.ok (Command.set key value none))
    else none
  | _ => none

/-- Arm for pattern `["GET" | "get", key]`. -/
def armGet : List String → Option (Except ParseError Command)
  | [v, key] =>
    if v = "GET" ∨ v = "get" then some (Except.ok (Command.get key)) else none
  | _ => none

/-- Arm for pattern `["DEL" | "del", key]`. -/
def armDel : List String → Option (Except ParseError Command)
  | [v, key] =>
    if v = "DEL" ∨ v = "del" then some (Except.ok (Command.del key)) else none
  | _ => none

/-- Arm for pattern `["LPUSH" | "lpush", key, values @ ..]`, including
    the in-arm empty-values usage error. -/
def armLpush : List String → Option (Except ParseError Command)
  | v :: key :: values =>
    if v = "LPUSH" ∨ v = "lpush" then
      some (if values = [] then
        Except.error (ParseError.invalidArgument
          "Usage: LPUSH <key> <value> [value ...]")
      else Except.ok (Command.lpush key values))
    else none
  | _ => none

/-- Arm for pattern `["RPUSH" | "rpush", key, values @ ..]`, including
    the in-arm empty-values usage error. -/
def armRpush : List String → Option (Except ParseError Command)
  | v :: key :: values =>
    if v = "RPUSH" ∨ v = "rpush" then
      some (if values = [] then
        Except.error (ParseError.invalidArgument
          "Usage: RPUSH <key> <value> [value ...]")
      else Except.ok (Command.rpush key values))
    else none
  | _ => none

/-- Arm for pattern `["LRANGE" | "lrange", key, start, stop]` with the
    two numeric argument checks. -/
def armLrange : List String → Option (Except ParseError Command)
  | [v, key, start, stop] =>
    if v = "LRANGE" ∨ v = "lrange" then
      some (match parseI64 start with
        | none => Except.error (ParseError.invalidArgument
            "start index must be an integer.")
        | some a =>
          match parseI64 stop with
          | none => Except.error (ParseError.invalidArgument
              "stop index must be an integer.")
          | some b => Except.ok (Command.lrange key a b))
    else none
  | _ => none

/-- Arm for pattern `["HSET" | "hset", key, field, value]`. -/
def armHset : List String → Option (Except ParseError Command)
  | [v, key, field, value] =>
    if v = "HSET" ∨ v = "hset" then
      some (Except.ok (Command.hset key field value))
    else none
  | _ => none

/-- Arm for pattern `["HGET" | "hget", key, field]`. -/
def armHget : List String → Option (Except ParseError Command)
  | [v, key, field] =>
    if v = "HGET" ∨ v = "hget" then
      some (Except.ok (Command.hget key field))
    else none
  | _ => none

/-- Arm for pattern `["HDEL" | "hdel", key, fields @ ..] if
    !fields.is_empty()`: when the guard fails control falls through. -/
def armHdel : List String → Option (Except ParseError Command)
  | v :: key :: fields =>
    if (v = "HDEL" ∨ v = "hdel") ∧ fields ≠ [] then
      some (Except.ok (Command.hdel key fields))
    else none
  | _ => none

/-- Arm for pattern `["HLEN" | "hlen", key]`. -/
def armHlen : List String → Option (Except ParseError Command)
  | [v, key] =>
    if v = "HLEN" ∨ v = "hlen" then some (Except.ok (Command.hlen key)) else none
  | _ => none

/-- Arm for pattern `["HGETALL" | "hgetall", key]`. -/
def armHgetall : List String → Option (Except ParseError Command)
  | [v, key] =>
    if v = "HGETALL" ∨ v = "hgetall" then
      some (Except.ok (Command.hgetall key))
    else none
  | _ => none

/-- Arm for pattern `["SET" | "set"]`. -/
def armSet1 : List String → Option (Except ParseError Command)
  | [v] =>
    if v = "SET" ∨ v = "set" then
      some (Except.error (ParseError.invalidArgument
        "SET command requires both key and value. Usage: SET <key> <value> [EX <seconds>]"))
    else none
  | _ => none

/-- Arm for pattern `["SET" | "set", _]`. -/
def armSet2 : List String → Option (Except ParseError Command)
  | [v, _] =>
    if v = "SET" ∨ v = "set" then
      some (Except.error (ParseError.invalidArgument
        "SET command requires both key and value. Usage: SET <key> <value> [EX <seconds>]"))
    else none
  | _ => none

/-- Arm for pattern `["SET" | "set", ..]`. -/
def armSetAny : List String → Option (Except ParseError Command)
  | v :: _ =>
    if v = "SET" ∨ v = "set" then
      some (Except.error (ParseError.invalidArgument
        "Invalid SET command format. Usage: SET <key> <value> [EX <seconds>]"))
    else none
  | _ => none

/-- Arm for pattern `["GET" | "get", ..] | ["DEL" | "del", ..]`. -/
def armGetDelAny : List String → Option (Except ParseError Command)
  | v :: _ =>
    if v = "GET" ∨ v = "get" ∨ v = "DEL" ∨ v = "del" then
      some (Except.error (ParseError.invalidArgument "Usage: GET|DEL <key>"))
    else none
  | _ => none

/-- Arm for pattern `["LRANGE" | "lrange", ..]`. -/
def armLrangeAny : List String → Option (Except ParseError Command)
  | v :: _ =>
    if v = "LRANGE" ∨ v = "lrange" then
      some (Except.error (ParseError.invalidArgument
        "Usage: LRANGE <key> <start> <stop>"))
    else none
  | _ => none

/-- Arm for pattern `["HSET" | "hset", ..]`. -/
def armHsetAny : List String → Option (Except ParseError Command)
  | v :: _ =>
    if v = "HSET" ∨ v = "hset" then
      some (Except.error (ParseError.invalidArgument
        "Usage: HSET <key> <field> <value>"))
    else none
  | _ => none

/-- Arm for pattern `["HGET" | "hget", ..] | ["HGETALL" | "hgetall", ..]`. -/
def armHgetAny : List String → Option (Except ParseError Command)
  | v :: _ =>
    if v = "HGET" ∨ v = "hget" ∨ v = "HGETALL" ∨ v = "hgetall" then
      some (Except.error (ParseError.invalidArgument
        "Usage: HGET|HGETALL <key> [field]"))
    else none
  | _ => none

/-- Arm for pattern `["HDEL" | "hdel", ..]`. -/
def armHdelAny : List String → Option (Except ParseError Command)
  | v :: _ =>
    if v = "HDEL" ∨ v = "hdel" then
      some (Except.error (ParseError.invalidArgument
        "Usage: HDEL <key> <field> [field ...]"))
    else none
  | _ => none

/-- Arm for pattern `["HLEN" | "hlen", _key, ..]`. -/
def armHlenExtra : List String → Option (Except ParseError Command)
  | v :: _ :: _ =>
    if v = "HLEN" ∨ v = "hlen" then
      some (Except.error (ParseError.invalidArgument "Usage: HLEN <key>"))
    else none
  | _ => none

/-- Arm for pattern `["SAVE" | "save"]`. -/
def armSave : List String → Option (Except ParseError Command)
  | [v] =>
    if v = "SAVE" ∨ v = "save" then some (Except.ok Command.save) else none
  | _ => none

/-- First-match semantics over the ordered arm list; the wildcard arm of
    the source match yields UnknownCommand. -/
def applyArms : List (List String → Option (Except ParseError Command)) →
    List String → Except ParseError Command
  | [], _ => Except.error ParseError.unknownCommand
  | a :: rest, parts =>
    match a parts with
    | some r => r
    | none => applyArms rest parts

/-- The ordered arms of the `match parts.as_slice()` in `Command::parse`. -/
def parseArms : List (List String → Option (Except ParseError Command)) :=
  [armSetEx, armSet3, armGet, armDel, armLpush, armRpush, armLrange,
   armHset, armHget, armHdel, armHlen, armHgetall,
   armSet1, armSet2, armSetAny, armGetDelAny, armLrangeAny, armHsetAny,
   armHgetAny, armHdelAny, armHlenExtra, armSave]

/-- Token-level body of `Command::parse`. -/
def parseTokens (parts : List String) : Except ParseError Command :=
  applyArms parseArms parts

/-- Rust `char::is_whitespace`: the Unicode white-space code points. -/
def isRustWhitespace (c : Char) : Bool :=
  c.toNat ∈ ([0x9, 0xA, 0xB, 0xC, 0xD, 0x20, 0x85, 0xA0, 0x1680,
    0x2000, 0x2001, 0x2002, 0x2003, 0x2004, 0x2005, 0x2006, 0x2007,
    0x2008, 0x2009, 0x200A, 0x2028, 0x2029, 0x202F, 0x205F, 0x3000] : List Nat)

/-- Whitespace splitter of `str::split_whitespace`: maximal runs of
    non-whitespace characters, empty tokens discarded; the accumulator
    holds the current token's characters in reverse. -/
def splitWsAux : List Char → List Char → List String
  | [], [] => []
  | [], acc => [String.mk acc.reverse]
  | c :: cs, acc =>
    if isRustWhitespace c then
      match acc with
      | [] => splitWsAux cs []
      | _ => String.mk acc.reverse :: splitWsAux cs []
    else splitWsAux cs (c :: acc)

/-- Tokenization of the decoded buffer (`split_whitespace` + collect). -/
def splitWhitespace (cs : List Char) : List String :=
  splitWsAux cs []

/-- UTF-8 decoding as performed by `std::str::from_utf8`: none exactly on
    invalid UTF-8 (overlong forms, surrogates, out-of-range scalar values
    and truncated sequences are rejected). -/
def decodeUtf8 : List Nat → Option (List Char)
  | [] => some []
  | b1 :: rest =>
    if b1 < 0x80 then
      match decodeUtf8 rest with
      | some cs => some (Char.ofNat b1 :: cs)
      | none => none
    else if 0xC2 ≤ b1 ∧ b1 ≤ 0xDF then
      match rest with
      | b2 :: rest2 =>
        if 0x80 ≤ b2 ∧ b2 ≤ 0xBF then
          match decodeUtf8 rest2 with
          | some cs => some (Char.ofNat ((b1 - 0xC0) * 0x40 + (b2 - 0x80)) :: cs)
          | none => none
        else none
      | _ => none
    else if 0xE0 ≤ b1 ∧ b1 ≤ 0xEF then
      match rest with
      | b2 :: b3 :: rest2 =>
        if (if b1 = 0xE0 then 0xA0 ≤ b2 ∧ b2 ≤ 0xBF
            else if b1 = 0xED then 0x80 ≤ b2 ∧ b2 ≤ 0x9F
            else 0x80 ≤ b2 ∧ b2 ≤ 0xBF) ∧ 0x80 ≤ b3 ∧ b3 ≤ 0xBF then
          match decodeUtf8 rest2 with
          | some cs => some (Char.ofNat
              ((b1 - 0xE0) * 0x1000 + (b2 - 0x80) * 0x40 + (b3 - 0x80)) :: cs)
          | none => none
        else none
      | _ => none
    else if 0xF0 ≤ b1 ∧ b1 ≤ 0xF4 then
      match rest with
      | b2 :: b3 :: b4 :: rest2 =>
        if (if b1 = 0xF0 then 0x90 ≤ b2 ∧ b2 ≤ 0xBF
            else if b1 = 0xF4 then 0x80 ≤ b2 ∧ b2 ≤ 0x8F
            else 0x80 ≤ b2 ∧ b2 ≤ 0xBF) ∧
           0x80 ≤ b3 ∧ b3 ≤ 0xBF ∧ 0x80 ≤ b4 ∧ b4 ≤ 0xBF then
          match decodeUtf8 rest2 with
          | some cs => some (Char.ofNat
              ((b1 - 0xF0) * 0x40000 + (b2 - 0x80) * 0x1000 +
               (b3 - 0x80) * 0x40 + (b4 - 0x80)) :: cs)
          | none => none
        else none
      | _ => none
    else none

/-- Command.parse over a raw byte buffer: decode as UTF-8 with the empty
    string as the fallback for invalid input (`from_utf8(buffer)
    .unwrap_or("")`), split on whitespace, then match the token list. -/
def Command.parse (buffer : List Nat) : Except ParseError Command :=
  parseTokens (splitWhitespace ((decodeUtf8 buffer).getD []))

/-- Byte encoding of an ASCII string, used to state concrete facts about
    Command.parse on readable inputs. -/
def asciiBytes (s : String) : List Nat :=
  s.data.map (fun c => c.toNat)

/-- Variant test: is the value a list. -/
def isListV : Value → Bool
  | .list _ => true
  | _ => false

/-- Variant test: is the value a hash. -/
def isHashV : Value → Bool
  | .hash _ => true
  | _ => false

/-- Operations of the storage engine, for stating invariants over
    arbitrary call sequences. -/
inductive Op where
  | setE (key value : String) (expiry : Option Nat) (now : Nat)
  | getE (key : String) (now : Nat)
  | removeE (key : String)
  | lpushE (key : String) (values : List String)
  | rpushE (key : String) (values : List String)
  | lrangeE (key : String) (start stop : Int)
  | hsetE (key field value : String)
  | hgetE (key field : String)
  | hdelE (key : String) (fields : List String)
  | hlenE (key : String)
  | hgetallE (key : String)
  | saveE
  | clearDirtyE

/-- State transition of one storage operation (results discarded). -/
def Storage.step (s : Storage) : Op → Storage
  | .setE k v e n => s.set k v e n
  | .getE k n => (s.get k n).2
  | .removeE k => (s.remove k).2
  | .lpushE k vs => (s.lpush k vs).2
  | .rpushE k vs => (s.rpush k vs).2
  | .lrangeE k a b => (s.lrange k a b).2
  | .hsetE k f v => (s.hset k f v).2
  | .hgetE k f => (s.hget k f).2
  | .hdelE k fs => (s.hdel k fs).2
  | .hlenE k => (s.hlen k).2
  | .hgetallE k => (s.hgetall k).2
  | .saveE => (saveSnapshot s).2
  | .clearDirtyE => s.clearDirtyFlag

/-- Invariant: every list or hash entry carries no expiry timestamp. -/
def NoContainerExpiry (s : Storage) : Prop :=
  ∀ key sv, s.data key = some sv →
    (isListV sv.data || isHashV sv.data) = true → sv.expiry = none

/- Helper lemmas. -/

theorem foldl_push_front (vs : List String) (l : List String) :
    vs.foldl (fun acc v => v :: acc) l = vs.reverse ++ l := by
  induction vs generalizing l with
  | nil => rfl
  | cons v vs ih => simp [List.foldl_cons, ih, List.append_assoc]

theorem foldl_push_back (vs : List String) (l : List String) :
    vs.foldl (fun acc v => acc ++ [v]) l = l ++ vs := by
  induction vs generalizing l with
  | nil => simp
  | cons v vs ih => simp [List.foldl_cons, ih]

theorem updateMap_self (m : String → Option StoreValue) (k : String)
    (v : StoreValue) : updateMap m k v k = some v := by
  simp [updateMap]

theorem updateMap_other (m : String → Option StoreValue) (k : String)
    (v : StoreValue) (k' : String) (h : k' ≠ k) :
    updateMap m k v k' = m k' := by
  simp [updateMap, h]

/-- C4: a single lpush on a vacant key or a key holding a list prepends
    each value individually in argument order, so the pushed batch appears
    reversed before the previous contents, while rpush appends the values
    preserving argument order; both return the resulting list length. -/
theorem push_batch_order (s : Storage) (key : String) (values l₀ : List String)
    (h : (s.data key = none ∧ l₀ = []) ∨
      ∃ exp, s.data key = some ⟨Value.list l₀, exp⟩) :
    ((Storage.lpush s key values).1 =
        Except.ok (values.length + l₀.length) ∧
      ∃ exp', (Storage.lpush s key values).2.data key =
        some ⟨Value.list (values.reverse ++ l₀), exp'⟩) ∧
    ((Storage.rpush s key values).1 =
        Except.ok (l₀.length + values.length) ∧
      ∃ exp', (Storage.rpush s key values).2.data key =
        some ⟨Value.list (l₀ ++ values), exp'⟩) := by
  rcases h with ⟨hn, rfl⟩ | ⟨exp, he⟩
  · refine ⟨⟨?_, none, ?_⟩, ?_, none, ?_⟩ <;>
      simp [Storage.lpush, Storage.rpush, hn, foldl_push_front,
        foldl_push_back, updateMap_self]
  · refine ⟨⟨?_, exp, ?_⟩, ?_, exp, ?_⟩ <;>
      simp [Storage.lpush, Storage.rpush, he, foldl_push_front,
        foldl_push_back, updateMap_self, Nat.add_comm]

/-- Witness for push_batch_order at a store holding the list ["a"] at key
    "l" with values ["x", "y"] pushed. -/
theorem push_batch_order_witness :
    ((Storage.lpush ⟨fun k => if k = "l"
          then some ⟨Value.list ["a"], none⟩ else none, false⟩ "l"
        ["x", "y"]).1 = Except.ok (["x", "y"].length + ["a"].length) ∧
      ∃ exp', (Storage.lpush ⟨fun k => if k = "l"
          then some ⟨Value.list ["a"], none⟩ else none, false⟩ "l"
        ["x", "y"]).2.data "l" =
        some ⟨Value.list (["x", "y"].reverse ++ ["a"]), exp'⟩) ∧
    ((Storage.rpush ⟨fun k => if k = "l"
          then some ⟨Value.list ["a"], none⟩ else none, false⟩ "l"
        ["x", "y"]).1 = Except.ok (["a"].length + ["x", "y"].length) ∧
      ∃ exp', (Storage.rpush ⟨fun k => if k = "l"
          then some ⟨Value.list ["a"], none⟩ else none, false⟩ "l"
        ["x", "y"]).2.data "l" =
        some ⟨Value.list (["a"] ++ ["x", "y"]), exp'⟩) :=
  push_batch_order _ "l" ["x", "y"] ["a"] (Or.inr ⟨none, by decide⟩)

/-- C5: every storage operation that fails with the wrong-type error on a
    key holding the wrong variant returns the whole storage — keyspace and
    dirty flag — exactly as it was. -/
theorem wrongtype_pure (s : Storage) (key : String) (sv : StoreValue)
    (h : s.data key = some sv) :
    (isListV sv.data = false →
      (∀ values, Storage.lpush s key values = (Except.error wrongTypeMsg, s)) ∧
      (∀ values, Storage.rpush s key values = (Except.error wrongTypeMsg, s)) ∧
      (∀ start stop, Storage.lrange s key start stop =
        (Except.error wrongTypeMsg, s))) ∧
    (isHashV sv.data = false →
      (∀ field value, Storage.hset s key field value =
        (Except.error wrongTypeMsg, s)) ∧
      (∀ field, Storage.hget s key field = (Except.error wrongTypeMsg, s)) ∧
      (∀ fields, Storage.hdel s key fields = (Except.error wrongTypeMsg, s)) ∧
      Storage.hlen s key = (Except.error wrongTypeMsg, s) ∧
      Storage.hgetall s key = (Except.error wrongTypeMsg, s)) := by
  obtain ⟨d, e⟩ := sv
  cases d <;>
    simp [Storage.lpush, Storage.rpush, Storage.lrange, Storage.hset,
      Storage.hget, Storage.hdel, Storage.hlen, Storage.hgetall, h,
      isListV, isHashV]

/-- Witness for wrongtype_pure at a store holding a scalar at key "k". -/
theorem wrongtype_pure_witness :
    (isListV (Value.str "v") = false →
      (∀ values, Storage.lpush ⟨fun k => if k = "k"
          then some ⟨Value.str "v", none⟩ else none, false⟩ "k" values =
        (Except.error wrongTypeMsg, ⟨fun k => if k = "k"
          then some ⟨Value.str "v", none⟩ else none, false⟩)) ∧
      (∀ values, Storage.rpush ⟨fun k => if k = "k"
          then some ⟨Value.str "v", none⟩ else none, false⟩ "k" values =
        (Except.error wrongTypeMsg, ⟨fun k => if k = "k"
          then some ⟨Value.str "v", none⟩ else none, false⟩)) ∧
      (∀ start stop, Storage.lrange ⟨fun k => if k = "k"
          then some ⟨Value.str "v", none⟩ else none, false⟩ "k" start stop =
        (Except.error wrongTypeMsg, ⟨fun k => if k = "k"
          then some ⟨Value.str "v", none⟩ else none, false⟩))) ∧
    (isHashV (Value.str "v") = false →
      (∀ field value, Storage.hset ⟨fun k => if k = "k"
          then some ⟨Value.str "v", none⟩ else none, false⟩ "k" field value =
        (Except.error wrongTypeMsg, ⟨fun k => if k = "k"
          then some ⟨Value.str "v", none⟩ else none, false⟩)) ∧
      (∀ field, Storage.hget ⟨fun k => if k = "k"
          then some ⟨Value.str "v", none⟩ else none, false⟩ "k" field =
        (Except.error wrongTypeMsg, ⟨fun k => if k = "k"
          then some ⟨Value.str "v", none⟩ else none, false⟩)) ∧
      (∀ fields, Storage.hdel ⟨fun k => if k = "k"
          then some ⟨Value.str "v", none⟩ else none, false⟩ "k" fields =
        (Except.error wrongTypeMsg, ⟨fun k => if k = "k"
          then some ⟨Value.str "v", none⟩ else none, false⟩)) ∧
      Storage.hlen ⟨fun k => if k = "k"
          then some ⟨Value.str "v", none⟩ else none, false⟩ "k" =
        (Except.error wrongTypeMsg, ⟨fun k => if k = "k"
          then some ⟨Value.str "v", none⟩ else none, false⟩) ∧
      Storage.hgetall ⟨fun k => if k = "k"
          then some ⟨Value.str "v", none⟩ else none, false⟩ "k" =
        (Except.error wrongTypeMsg, ⟨fun k => if k = "k"
          then some ⟨Value.str "v", none⟩ else none, false⟩)) :=
  wrongtype_pure _ "k" ⟨Value.str "v", none⟩ (by decide)

/-- C6: get with an expiry timestamp at or before the current time
    reports absence, removes exactly that key and sets the dirty flag;
    before the timestamp (or without one) it returns the entry and leaves
    the storage untouched; get on an absent key mutates nothing. -/
theorem get_lazy_expiry (s : Storage) (key : String) (now : Nat) :
    (s.data key = none → Storage.get s key now = (none, s)) ∧
    (∀ sv, s.data key = some sv →
      (sv.expiry = none → Storage.get s key now = (some sv, s)) ∧
      (∀ t, sv.expiry = some t →
        (t ≤ now →
          (Storage.get s key now).1 = none ∧
          (Storage.get s key now).2.data key = none ∧
          (Storage.get s key now).2.dirty = true ∧
          (∀ k', k' ≠ key → (Storage.get s key now).2.data k' = s.data k')) ∧
        (now < t → Storage.get s key now = (some sv, s)))) := by
  refine ⟨fun h => ?_, fun sv hsv =>
    ⟨fun he => ?_, fun t ht => ⟨fun hexp => ?_, fun hlive => ?_⟩⟩⟩
  · simp [Storage.get, h]
  · simp [Storage.get, hsv, he]
  · have hge : now ≥ t := hexp
    refine ⟨?_, ?_, ?_, fun k' hk' => ?_⟩
    · simp [Storage.get, hsv, ht, hge]
    · simp [Storage.get, hsv, ht, hge, removeMap]
    · simp [Storage.get, hsv, ht, hge]
    · simp [Storage.get, hsv, ht, hge, removeMap, hk']
  · have hnge : ¬ now ≥ t := by omega
    simp [Storage.get, hsv, ht, hnge]

/-- Witness for get_lazy_expiry at a store holding an entry with expiry
    timestamp 100 at key "k", read at time 100. -/
theorem get_lazy_expiry_witness :
    (Storage.get ⟨fun k => if k = "k"
        then some ⟨Value.str "v", some 100⟩ else none, false⟩ "k" 100).1 =
      none ∧
    (Storage.get ⟨fun k => if k = "k"
        then some ⟨Value.str "v", some 100⟩ else none, false⟩ "k" 100).2.data
      "k" = none ∧
    (Storage.get ⟨fun k => if k = "k"
        then some ⟨Value.str "v", some 100⟩ else none, false⟩ "k" 100).2.dirty
      = true ∧
    (∀ k', k' ≠ "k" →
      (Storage.get ⟨fun k => if k = "k"
          then some ⟨Value.str "v", some 100⟩ else none, false⟩ "k" 100).2.data
        k' = (if k' = "k" then some ⟨Value.str "v", some 100⟩ else none)) :=
  (((get_lazy_expiry _ "k" 100).2 ⟨Value.str "v", some 100⟩
    (by decide)).2 100 (by decide)).1 (by decide)

/-- C7: the dirty flag becomes true after set, after every successful
    lpush, rpush and hset, and after a remove that removed something; a
    remove of an absent key changes nothing; hdel leaves the dirty flag
    exactly as it was. -/
theorem dirty_flag_discipline :
    (∀ s key value exp now, (Storage.set s key value exp now).dirty = true) ∧
    (∀ s key values n s2,
      Storage.lpush s key values = (Except.ok n, s2) → s2.dirty = true) ∧
    (∀ s key values n s2,
      Storage.rpush s key values = (Except.ok n, s2) → s2.dirty = true) ∧
    (∀ s key field value n s2,
      Storage.hset s key field value = (Except.ok n, s2) → s2.dirty = true) ∧
    (∀ s key sv, s.data key = some sv →
      (Storage.remove s key).2.dirty = true) ∧
    (∀ (s : Storage) key, s.data key = none → Storage.remove s key = (none, s)) ∧
    (∀ s key fields, (Storage.hdel s key fields).2.dirty = s.dirty) := by
  refine ⟨fun s key value exp now => rfl, ?_, ?_, ?_, ?_, ?_, ?_⟩
  · intro s key values n s2 h
    rcases hd : s.data key with _ | sv
    · rw [Storage.lpush, hd] at h
      simp only [Prod.mk.injEq] at h
      rw [← h.2]
    · obtain ⟨d, e⟩ := sv
      cases d <;> rw [Storage.lpush, hd] at h <;>
        simp only [Prod.mk.injEq] at h <;>
        first | exact Except.noConfusion h.1 | rw [← h.2]
  · intro s key values n s2 h
    rcases hd : s.data key with _ | sv
    · rw [Storage.rpush, hd] at h
      simp only [Prod.mk.injEq] at h
      rw [← h.2]
    · obtain ⟨d, e⟩ := sv
      cases d <;> rw [Storage.rpush, hd] at h <;>
        simp only [Prod.mk.injEq] at h <;>
        first | exact Except.noConfusion h.1 | rw [← h.2]
  · intro s key field value n s2 h
    rcases hd : s.data key with _ | sv
    · rw [Storage.hset, hd] at h
      simp only [Prod.mk.injEq] at h
      rw [← h.2]
    · obtain ⟨d, e⟩ := sv
      cases d <;> rw [Storage.hset, hd] at h <;>
        simp only [Prod.mk.injEq] at h <;>
        first | exact Except.noConfusion h.1 | rw [← h.2]
  · intro s key sv h
    simp [Storage.remove, h]
  · intro s key h
    simp [Storage.remove, h]
  · intro s key fields
    rcases hd : s.data key with _ | sv
    · simp [Storage.hdel, hd]
    · obtain ⟨d, e⟩ := sv
      cases d <;> simp [Storage.hdel, hd]

/-- Witness for dirty_flag_discipline: the hypotheses of the lpush and
    remove conjuncts discharged at concrete stores. -/
theorem dirty_flag_discipline_witness :
    ((Storage.lpush Storage.new "l" ["x"]).2.dirty = true) ∧
    ((Storage.remove ⟨fun k => if k = "k"
        then some ⟨Value.str "v", none⟩ else none, false⟩ "k").2.dirty = true) ∧
    (Storage.remove Storage.new "k" = (none, Storage.new)) :=
  ⟨dirty_flag_discipline.2.1 Storage.new "l" ["x"] 1
      (Storage.lpush Storage.new "l" ["x"]).2 rfl,
    dirty_flag_discipline.2.2.2.2.1 _ "k" ⟨Value.str "v", none⟩ (by decide),
    dirty_flag_discipline.2.2.2.2.2.1 Storage.new "k" rfl⟩

/-- C8 counterexample: starting from a clean store, two snapshot
    invocations with no mutation in between perform zero file writes, not
    exactly one. -/
theorem save_twice_clean_counterexample :
    (saveTwice Storage.new).1 = 0 ∧ (saveTwice Storage.new).1 ≠ 1 := by
  constructor <;> decide

/-- C8 amended: a snapshot on a clean store performs no write and changes
    nothing; two snapshot invocations with no mutation in between perform
    exactly one write when the store was dirty at the first call and zero
    when it was clean, the second invocation never writing. -/
theorem snapshot_skip_when_clean (s : Storage) :
    (s.dirty = false → saveSnapshot s = (false, s)) ∧
    (saveTwice s).1 = (if s.dirty then 1 else 0) ∧
    (saveSnapshot (saveSnapshot s).2).1 = false := by
  rcases hd : s.dirty <;> simp [saveSnapshot, saveTwice, hd]

/-- Witness for snapshot_skip_when_clean at the clean empty store. -/
theorem snapshot_skip_when_clean_witness :
    saveSnapshot Storage.new = (false, Storage.new) ∧
    (saveTwice Storage.new).1 = (if Storage.new.dirty then 1 else 0) ∧
    (saveSnapshot (saveSnapshot Storage.new).2).1 = false :=
  ⟨(snapshot_skip_when_clean Storage.new).1 rfl,
    (snapshot_skip_when_clean Storage.new).2.1,
    (snapshot_skip_when_clean Storage.new).2.2⟩

theorem updateMap_cases {m : String → Option StoreValue} {k : String}
    {v : StoreValue} {k' : String} {sv : StoreValue}
    (h : updateMap m k v k' = some sv) :
    (k' = k ∧ sv = v) ∨ (k' ≠ k ∧ m k' = some sv) := by
  by_cases hk : k' = k
  · left
    refine ⟨hk, ?_⟩
    rw [updateMap, if_pos hk] at h
    exact (Option.some.injEq _ _ ▸ h).symm
  · right
    refine ⟨hk, ?_⟩
    rwa [updateMap, if_neg hk] at h

theorem removeMap_cases {m : String → Option StoreValue} {k k' : String}
    {sv : StoreValue} (h : removeMap m k k' = some sv) : m k' = some sv := by
  by_cases hk : k' = k
  · rw [removeMap, if_pos hk] at h
    cases h
  · rwa [removeMap, if_neg hk] at h

theorem step_preserves_no_container_expiry (s : Storage) (op : Op)
    (h : NoContainerExpiry s) : NoContainerExpiry (s.step op) := by
  cases op with
  | setE k v e n =>
    intro key sv h1 h2
    rcases updateMap_cases h1 with ⟨_, rfl⟩ | ⟨_, hm⟩
    · simp [isListV, isHashV] at h2
    · exact h key sv hm h2
  | getE k n =>
    intro key sv h1 h2
    rw [Storage.step, Storage.get] at h1
    rcases hd : s.data k with _ | ⟨d, e⟩ <;> rw [hd] at h1
    · exact h key sv h1 h2
    · rcases e with _ | t
      · exact h key sv h1 h2
      · by_cases hge : n ≥ t
        · simp only [hge, if_true] at h1
          exact h key sv (removeMap_cases h1) h2
        · simp only [hge, if_false] at h1
          exact h key sv h1 h2
  | removeE k =>
    intro key sv h1 h2
    rw [Storage.step, Storage.remove] at h1
    rcases hd : s.data k with _ | sv0 <;> rw [hd] at h1
    · exact h key sv h1 h2
    · exact h key sv (removeMap_cases h1) h2
  | lpushE k vs =>
    intro key sv h1 h2
    rw [Storage.step, Storage.lpush] at h1
    rcases hd : s.data k with _ | sv0 <;> rw [hd] at h1
    · rcases updateMap_cases h1 with ⟨_, rfl⟩ | ⟨_, hm⟩
      · rfl
      · exact h key sv hm h2
    · obtain ⟨d, e⟩ := sv0
      cases d with
      | str v =>
        exact h key sv h1 h2
      | list l =>
        rcases updateMap_cases h1 with ⟨_, rfl⟩ | ⟨_, hm⟩
        · exact h k ⟨Value.list l, e⟩ hd (by simp [isListV])
        · exact h key sv hm h2
      | hash hh =>
        exact h key sv h1 h2
  | rpushE k vs =>
    intro key sv h1 h2
    rw [Storage.step, Storage.rpush] at h1
    rcases hd : s.data k with _ | sv0 <;> rw [hd] at h1
    · rcases updateMap_cases h1 with ⟨_, rfl⟩ | ⟨_, hm⟩
      · rfl
      · exact h key sv hm h2
    · obtain ⟨d, e⟩ := sv0
      cases d with
      | str v =>
        exact h key sv h1 h2
      | list l =>
        rcases updateMap_cases h1 with ⟨_, rfl⟩ | ⟨_, hm⟩
        · exact h k ⟨Value.list l, e⟩ hd (by simp [isListV])
        · exact h key sv hm h2
      | hash hh =>
        exact h key sv h1 h2
  | lrangeE k a b =>
    intro key sv h1 h2
    rw [Storage.step, Storage.lrange] at h1
    rcases hd : s.data k with _ | ⟨d, e⟩ <;> rw [hd] at h1
    · exact h key sv h1 h2
    · cases d with
      | str v => exact h key sv h1 h2
      | list l =>
        by_cases hc : normIndex a l.length ≥ l.length ∨
            normIndex a l.length > normIndex b l.length
        · simp only [hc, if_true] at h1
          exact h key sv h1 h2
        · simp only [hc, if_false] at h1
          exact h key sv h1 h2
      | hash hh => exact h key sv h1 h2
  | hsetE k f v =>
    intro key sv h1 h2
    rw [Storage.step, Storage.hset] at h1
    rcases hd : s.data k with _ | sv0 <;> rw [hd] at h1
    · rcases updateMap_cases h1 with ⟨_, rfl⟩ | ⟨_, hm⟩
      · rfl
      · exact h key sv hm h2
    · obtain ⟨d, e⟩ := sv0
      cases d with
      | str w => exact h key sv h1 h2
      | list l => exact h key sv h1 h2
      | hash hh =>
        rcases updateMap_cases h1 with ⟨_, rfl⟩ | ⟨_, hm⟩
        · exact h k ⟨Value.hash hh, e⟩ hd (by simp [isHashV])
        · exact h key sv hm h2
  | hgetE k f =>
    intro key sv h1 h2
    rw [Storage.step, Storage.hget] at h1
    rcases hd : s.data k with _ | sv0 <;> rw [hd] at h1
    · exact h key sv h1 h2
    · obtain ⟨d, e⟩ := sv0
      cases d <;> exact h key sv h1 h2
  | hdelE k fs =>
    intro key sv h1 h2
    rw [Storage.step, Storage.hdel] at h1
    rcases hd : s.data k with _ | sv0 <;> rw [hd] at h1
    · exact h key sv h1 h2
    · obtain ⟨d, e⟩ := sv0
      cases d with
      | str w => exact h key sv h1 h2
      | list l => exact h key sv h1 h2
      | hash hh =>
        rcases updateMap_cases h1 with ⟨_, rfl⟩ | ⟨_, hm⟩
        · exact h k ⟨Value.hash hh, e⟩ hd (by simp [isHashV])
        · exact h key sv hm h2
  | hlenE k =>
    intro key sv h1 h2
    rw [Storage.step, Storage.hlen] at h1
    rcases hd : s.data k with _ | sv0 <;> rw [hd] at h1
    · exact h key sv h1 h2
    · obtain ⟨d, e⟩ := sv0
      cases d <;> exact h key sv h1 h2
  | hgetallE k =>
    intro key sv h1 h2
    rw [Storage.step, Storage.hgetall] at h1
    rcases hd : s.data k with _ | sv0 <;> rw [hd] at h1
    · exact h key sv h1 h2
    · obtain ⟨d, e⟩ := sv0
      cases d <;> exact h key sv h1 h2
  | saveE =>
    intro key sv h1 h2
    rw [Storage.step, saveSnapshot] at h1
    by_cases hd : s.dirty <;> simp [hd] at h1 <;> exact h key sv h1 h2
  | clearDirtyE =>
    intro key sv h1 h2
    exact h key sv h1 h2

theorem foldl_preserves_no_container_expiry (ops : List Op) (s : Storage)
    (h : NoContainerExpiry s) :
    NoContainerExpiry (ops.foldl Storage.step s) := by
  induction ops generalizing s with
  | nil => exact h
  | cons op ops ih =>
    exact ih _ (step_preserves_no_container_expiry s op h)

/-- C10: starting from the empty storage, after any sequence of storage
    operations every list or hash entry has no expiry timestamp: only set
    attaches a timestamp and set always stores a scalar, while the
    list/hash auto-creation paths create entries without expiry. -/
theorem container_entries_never_expire (ops : List Op) :
    NoContainerExpiry (ops.foldl Storage.step Storage.new) := by
  refine foldl_preserves_no_container_expiry ops Storage.new ?_
  intro key sv h1 h2
  cases h1

/-- Witness for container_entries_never_expire on a concrete operation
    sequence exercising set with expiry, lpush and hset. -/
theorem container_entries_never_expire_witness :
    NoContainerExpiry ([Op.setE "a" "v" (some 5) 0, Op.lpushE "l" ["x"],
      Op.hsetE "h" "f" "w", Op.getE "a" 10].foldl Storage.step Storage.new) :=
  container_entries_never_expire
    [Op.setE "a" "v" (some 5) 0, Op.lpushE "l" ["x"],
      Op.hsetE "h" "f" "w", Op.getE "a" 10]

/-- C9: Command.parse is total and treats a buffer that is not valid
    UTF-8 as empty input, returning UnknownCommand rather than any
    decoding failure. -/
theorem parse_invalid_utf8 (buffer : List Nat)
    (h : decodeUtf8 buffer = none) :
    Command.parse buffer = Except.error ParseError.unknownCommand ∧
    Command.parse buffer = Command.parse [] := by
  have hb : Command.parse buffer = parseTokens [] := by
    rw [Command.parse, h]
    rfl
  have he : parseTokens [] = Except.error ParseError.unknownCommand := by rfl
  exact ⟨hb.trans he, hb.trans rfl⟩

/-- Witness for parse_invalid_utf8 at the invalid byte 0xFF. -/
theorem parse_invalid_utf8_witness :
    Command.parse [0xFF] = Except.error ParseError.unknownCommand ∧
    Command.parse [0xFF] = Command.parse [] :=
  parse_invalid_utf8 [0xFF] (by decide)

/-- C1: lrange on an absent key returns Ok none, on a non-list entry the
    wrong-type error; on a list of length L it normalizes negative
    indices by adding L, clamps to at least 0, returns the empty sequence
    when the normalized start reaches L or exceeds the normalized stop,
    and otherwise the inclusive slice from start to min(stop, L-1) in
    list order; the storage is never mutated. -/
theorem lrange_correct (s : Storage) (key : String) (start stop : Int) :
    (s.data key = none →
      Storage.lrange s key start stop = (Except.ok none, s)) ∧
    (∀ sv, s.data key = some sv →
      ((∀ l, sv.data ≠ Value.list l) →
        Storage.lrange s key start stop = (Except.error wrongTypeMsg, s)) ∧
      (∀ l, sv.data = Value.list l →
        (normIndex start l.length ≥ l.length ∨
            normIndex start l.length > normIndex stop l.length →
          Storage.lrange s key start stop = (Except.ok (some []), s)) ∧
        (normIndex start l.length < l.length →
         normIndex start l.length ≤ normIndex stop l.length →
          ∃ r, Storage.lrange s key start stop = (Except.ok (some r), s) ∧
            r.length = min (normIndex stop l.length) (l.length - 1) + 1 -
              normIndex start l.length ∧
            ∀ i, i < r.length →
              r[i]? = l[normIndex start l.length + i]?))) := by
  refine ⟨fun h => ?_, fun sv hsv => ⟨fun hnl => ?_, fun l hl =>
    ⟨fun hempty => ?_, fun hlt hle => ?_⟩⟩⟩
  · simp [Storage.lrange, h]
  · obtain ⟨d, e⟩ := sv
    cases d with
    | str v => simp [Storage.lrange, hsv]
    | list l => exact absurd rfl (hnl l)
    | hash hh => simp [Storage.lrange, hsv]
  · simp [Storage.lrange, hsv, hl, hempty]
  · have hcond : ¬ (normIndex start l.length ≥ l.length ∨
        normIndex start l.length > normIndex stop l.length) := by omega
    refine ⟨(l.drop (normIndex start l.length)).take
      (min (normIndex stop l.length) (l.length - 1) -
        normIndex start l.length + 1), ?_, ?_, ?_⟩
    · simp [Storage.lrange, hsv, hl, hcond]
    · rw [List.length_take, List.length_drop]
      have h1 : min (normIndex stop l.length) (l.length - 1) ≤
          l.length - 1 := Nat.min_le_right _ _
      have h2 : normIndex start l.length ≤
          min (normIndex stop l.length) (l.length - 1) :=
        le_min hle (by omega)
      omega
    · intro i hi
      rw [List.length_take, List.length_drop] at hi
      rw [List.getElem?_take_of_lt (by omega), List.getElem?_drop]

/-- Witness for lrange_correct: the slice branch at a four-element list
    with start 1 and stop 2. -/
theorem lrange_correct_witness :
    ∃ r, Storage.lrange ⟨fun k => if k = "k"
        then some ⟨Value.list ["a", "b", "c", "d"], none⟩ else none, false⟩
        "k" 1 2 = (Except.ok (some r), ⟨fun k => if k = "k"
        then some ⟨Value.list ["a", "b", "c", "d"], none⟩ else none, false⟩) ∧
      r.length = min (normIndex 2 (["a", "b", "c", "d"] : List String).length)
        ((["a", "b", "c", "d"] : List String).length - 1) + 1 -
        normIndex 1 (["a", "b", "c", "d"] : List String).length ∧
      ∀ i, i < r.length →
        r[i]? = (["a", "b", "c", "d"] : List String)[
          normIndex 1 (["a", "b", "c", "d"] : List String).length + i]? :=
  (((lrange_correct _ "k" 1 2).2 ⟨Value.list ["a", "b", "c", "d"], none⟩
    (by decide)).2 ["a", "b", "c", "d"] rfl).2 (by decide) (by decide)

theorem ptPair_get (rest : List String) :
    parseTokens ("GET" :: rest) = parseTokens ("get" :: rest) := by
  rcases rest with _ | ⟨a, _ | ⟨b, _ | ⟨c, _ | ⟨d, _ | ⟨e, ts⟩⟩⟩⟩⟩ <;>
    simp [parseTokens, parseArms, applyArms, armSetEx, armSet3, armGet,
      armDel, armLpush, armRpush, armLrange, armHset, armHget, armHdel,
      armHlen, armHgetall, armSet1, armSet2, armSetAny, armGetDelAny,
      armLrangeAny, armHsetAny, armHgetAny, armHdelAny, armHlenExtra,
      armSave]

theorem ptPair_set (rest : List String) :
    parseTokens ("SET" :: rest) = parseTokens ("set" :: rest) := by
  rcases rest with _ | ⟨a, _ | ⟨b, _ | ⟨c, _ | ⟨d, _ | ⟨e, ts⟩⟩⟩⟩⟩ <;>
    simp [parseTokens, parseArms, applyArms, armSetEx, armSet3, armGet,
      armDel, armLpush, armRpush, armLrange, armHset, armHget, armHdel,
      armHlen, armHgetall, armSet1, armSet2, armSetAny, armGetDelAny,
      armLrangeAny, armHsetAny, armHgetAny, armHdelAny, armHlenExtra,
      armSave]

theorem ptPair_del (rest : List String) :
    parseTokens ("DEL" :: rest) = parseTokens ("del" :: rest) := by
  rcases rest with _ | ⟨a, _ | ⟨b, _ | ⟨c, _ | ⟨d, _ | ⟨e, ts⟩⟩⟩⟩⟩ <;>
    simp [parseTokens, parseArms, applyArms, armSetEx, armSet3, armGet,
      armDel, armLpush, armRpush, armLrange, armHset, armHget, armHdel,
      armHlen, armHgetall, armSet1, armSet2, armSetAny, armGetDelAny,
      armLrangeAny, armHsetAny, armHgetAny, armHdelAny, armHlenExtra,
      armSave]

theorem ptPair_lpush (rest : List String) :
    parseTokens ("LPUSH" :: rest) = parseTokens ("lpush" :: rest) := by
  rcases rest with _ | ⟨a, _ | ⟨b, _ | ⟨c, _ | ⟨d, _ | ⟨e, ts⟩⟩⟩⟩⟩ <;>
    simp [parseTokens, parseArms, applyArms, armSetEx, armSet3, armGet,
      armDel, armLpush, armRpush, armLrange, armHset, armHget, armHdel,
      armHlen, armHgetall, armSet1, armSet2, armSetAny, armGetDelAny,
      armLrangeAny, armHsetAny, armHgetAny, armHdelAny, armHlenExtra,
      armSave]

theorem ptPair_rpush (rest : List String) :
    parseTokens ("RPUSH" :: rest) = parseTokens ("rpush" :: rest) := by
  rcases rest with _ | ⟨a, _ | ⟨b, _ | ⟨c, _ | ⟨d, _ | ⟨e, ts⟩⟩⟩⟩⟩ <;>
    simp [parseTokens, parseArms, applyArms, armSetEx, armSet3, armGet,
      armDel, armLpush, armRpush, armLrange, armHset, armHget, armHdel,
      armHlen, armHgetall, armSet1, armSet2, armSetAny, armGetDelAny,
      armLrangeAny, armHsetAny, armHgetAny, armHdelAny, armHlenExtra,
      armSave]

theorem ptPair_lrange (rest : List String) :
    parseTokens ("LRANGE" :: rest) = parseTokens ("lrange" :: rest) := by
  rcases rest with _ | ⟨a, _ | ⟨b, _ | ⟨c, _ | ⟨d, _ | ⟨e, ts⟩⟩⟩⟩⟩ <;>
    simp [parseTokens, parseArms, applyArms, armSetEx, armSet3, armGet,
      armDel, armLpush, armRpush, armLrange, armHset, armHget, armHdel,
      armHlen, armHgetall, armSet1, armSet2, armSetAny, armGetDelAny,
      armLrangeAny, armHsetAny, armHgetAny, armHdelAny, armHlenExtra,
      armSave]

theorem ptPair_hset (rest : List String) :
    parseTokens ("HSET" :: rest) = parseTokens ("hset" :: rest) := by
  rcases rest with _ | ⟨a, _ | ⟨b, _ | ⟨c, _ | ⟨d, _ | ⟨e, ts⟩⟩⟩⟩⟩ <;>
    simp [parseTokens, parseArms, applyArms, armSetEx, armSet3, armGet,
      armDel, armLpush, armRpush, armLrange, armHset, armHget, armHdel,
      armHlen, armHgetall, armSet1, armSet2, armSetAny, armGetDelAny,
      armLrangeAny, armHsetAny, armHgetAny, armHdelAny, armHlenExtra,
      armSave]

theorem ptPair_hget (rest : List String) :
    parseTokens ("HGET" :: rest) = parseTokens ("hget" :: rest) := by
  rcases rest with _ | ⟨a, _ | ⟨b, _ | ⟨c, _ | ⟨d, _ | ⟨e, ts⟩⟩⟩⟩⟩ <;>
    simp [parseTokens, parseArms, applyArms, armSetEx, armSet3, armGet,
      armDel, armLpush, armRpush, armLrange, armHset, armHget, armHdel,
      armHlen, armHgetall, armSet1, armSet2, armSetAny, armGetDelAny,
      armLrangeAny, armHsetAny, armHgetAny, armHdelAny, armHlenExtra,
      armSave]

theorem ptPair_hdel (rest : List String) :
    parseTokens ("HDEL" :: rest) = parseTokens ("hdel" :: rest) := by
  rcases rest with _ | ⟨a, _ | ⟨b, _ | ⟨c, _ | ⟨d, _ | ⟨e, ts⟩⟩⟩⟩⟩ <;>
    simp [parseTokens, parseArms, applyArms, armSetEx, armSet3, armGet,
      armDel, armLpush, armRpush, armLrange, armHset, armHget, armHdel,
      armHlen, armHgetall, armSet1, armSet2, armSetAny, armGetDelAny,
      armLrangeAny, armHsetAny, armHgetAny, armHdelAny, armHlenExtra,
      armSave]

theorem ptPair_hlen (rest : List String) :
    parseTokens ("HLEN" :: rest) = parseTokens ("hlen" :: rest) := by
  rcases rest with _ | ⟨a, _ | ⟨b, _ | ⟨c, _ | ⟨d, _ | ⟨e, ts⟩⟩⟩⟩⟩ <;>
    simp [parseTokens, parseArms, applyArms, armSetEx, armSet3, armGet,
      armDel, armLpush, armRpush, armLrange, armHset, armHget, armHdel,
      armHlen, armHgetall, armSet1, armSet2, armSetAny, armGetDelAny,
      armLrangeAny, armHsetAny, armHgetAny, armHdelAny, armHlenExtra,
      armSave]

theorem ptPair_hgetall (rest : List String) :
    parseTokens ("HGETALL" :: rest) = parseTokens ("hgetall" :: rest) := by
  rcases rest with _ | ⟨a, _ | ⟨b, _ | ⟨c, _ | ⟨d, _ | ⟨e, ts⟩⟩⟩⟩⟩ <;>
    simp [parseTokens, parseArms, applyArms, armSetEx, armSet3, armGet,
      armDel, armLpush, armRpush, armLrange, armHset, armHget, armHdel,
      armHlen, armHgetall, armSet1, armSet2, armSetAny, armGetDelAny,
      armLrangeAny, armHsetAny, armHgetAny, armHdelAny, armHlenExtra,
      armSave]

theorem ptPair_save (rest : List String) :
    parseTokens ("SAVE" :: rest) = parseTokens ("save" :: rest) := by
  rcases rest with _ | ⟨a, _ | ⟨b, _ | ⟨c, _ | ⟨d, _ | ⟨e, ts⟩⟩⟩⟩⟩ <;>
    simp [parseTokens, parseArms, applyArms, armSetEx, armSet3, armGet,
      armDel, armLpush, armRpush, armLrange, armHset, armHget, armHdel,
      armHlen, armHgetall, armSet1, armSet2, armSetAny, armGetDelAny,
      armLrangeAny, armHsetAny, armHgetAny, armHdelAny, armHlenExtra,
      armSave]

theorem ptUnknown_GET (rest : List String) :
    parseTokens ("GET" :: rest) ≠ Except.error ParseError.unknownCommand := by
  rcases rest with _ | ⟨a, _ | ⟨b, _ | ⟨c, _ | ⟨d, _ | ⟨e, ts⟩⟩⟩⟩⟩ <;>
    simp [parseTokens, parseArms, applyArms, armSetEx, armSet3, armGet,
      armDel, armLpush, armRpush, armLrange, armHset, armHget, armHdel,
      armHlen, armHgetall, armSet1, armSet2, armSetAny, armGetDelAny,
      armLrangeAny, armHsetAny, armHgetAny, armHdelAny, armHlenExtra,
      armSave]

theorem ptUnknown_get (rest : List String) :
    parseTokens ("get" :: rest) ≠ Except.error ParseError.unknownCommand := by
  rcases rest with _ | ⟨a, _ | ⟨b, _ | ⟨c, _ | ⟨d, _ | ⟨e, ts⟩⟩⟩⟩⟩ <;>
    simp [parseTokens, parseArms, applyArms, armSetEx, armSet3, armGet,
      armDel, armLpush, armRpush, armLrange, armHset, armHget, armHdel,
      armHlen, armHgetall, armSet1, armSet2, armSetAny, armGetDelAny,
      armLrangeAny, armHsetAny, armHgetAny, armHdelAny, armHlenExtra,
      armSave]

theorem ptUnknown_SET (rest : List String) :
    parseTokens ("SET" :: rest) ≠ Except.error ParseError.unknownCommand := by
  rcases rest with _ | ⟨a, _ | ⟨b, _ | ⟨c, _ | ⟨d, _ | ⟨e, ts⟩⟩⟩⟩⟩
  · simp [parseTokens, parseArms, applyArms, armSetEx, armSet3, armGet,
      armDel, armLpush, armRpush, armLrange, armHset, armHget, armHdel,
      armHlen, armHgetall, armSet1, armSet2, armSetAny, armGetDelAny,
      armLrangeAny, armHsetAny, armHgetAny, armHdelAny, armHlenExtra,
      armSave]
  · simp [parseTokens, parseArms, applyArms, armSetEx, armSet3, armGet,
      armDel, armLpush, armRpush, armLrange, armHset, armHget, armHdel,
      armHlen, armHgetall, armSet1, armSet2, armSetAny, armGetDelAny,
      armLrangeAny, armHsetAny, armHgetAny, armHdelAny, armHlenExtra,
      armSave]
  · simp [parseTokens, parseArms, applyArms, armSetEx, armSet3, armGet,
      armDel, armLpush, armRpush, armLrange, armHset, armHget, armHdel,
      armHlen, armHgetall, armSet1, armSet2, armSetAny, armGetDelAny,
      armLrangeAny, armHsetAny, armHgetAny, armHdelAny, armHlenExtra,
      armSave]
  · simp [parseTokens, parseArms, applyArms, armSetEx, armSet3, armGet,
      armDel, armLpush, armRpush, armLrange, armHset, armHget, armHdel,
      armHlen, armHgetall, armSet1, armSet2, armSetAny, armGetDelAny,
      armLrangeAny, armHsetAny, armHgetAny, armHdelAny, armHlenExtra,
      armSave]
  · rcases hd : parseU64 d with _ | n <;>
      simp [parseTokens, parseArms, applyArms, armSetEx, armSet3, armGet,
      armDel, armLpush, armRpush, armLrange, armHset, armHget, armHdel,
      armHlen, armHgetall, armSet1, armSet2, armSetAny, armGetDelAny,
      armLrangeAny, armHsetAny, armHgetAny, armHdelAny, armHlenExtra,
      armSave, hd] <;> split_ifs <;> simp
  · simp [parseTokens, parseArms, applyArms, armSetEx, armSet3, armGet,
      armDel, armLpush, armRpush, armLrange, armHset, armHget, armHdel,
      armHlen, armHgetall, armSet1, armSet2, armSetAny, armGetDelAny,
      armLrangeAny, armHsetAny, armHgetAny, armHdelAny, armHlenExtra,
      armSave]

theorem ptUnknown_set (rest : List String) :
    parseTokens ("set" :: rest) ≠ Except.error ParseError.unknownCommand := by
  rcases rest with _ | ⟨a, _ | ⟨b, _ | ⟨c, _ | ⟨d, _ | ⟨e, ts⟩⟩⟩⟩⟩
  · simp [parseTokens, parseArms, applyArms, armSetEx, armSet3, armGet,
      armDel, armLpush, armRpush, armLrange, armHset, armHget, armHdel,
      armHlen, armHgetall, armSet1, armSet2, armSetAny, armGetDelAny,
      armLrangeAny, armHsetAny, armHgetAny, armHdelAny, armHlenExtra,
      armSave]
  · simp [parseTokens, parseArms, applyArms, armSetEx, armSet3, armGet,
      armDel, armLpush, armRpush, armLrange, armHset, armHget, armHdel,
      armHlen, armHgetall, armSet1, armSet2, armSetAny, armGetDelAny,
      armLrangeAny, armHsetAny, armHgetAny, armHdelAny, armHlenExtra,
      armSave]
  · simp [parseTokens, parseArms, applyArms, armSetEx, armSet3, armGet,
      armDel, armLpush, armRpush, armLrange, armHset, armHget, armHdel,
      armHlen, armHgetall, armSet1, armSet2, armSetAny, armGetDelAny,
      armLrangeAny, armHsetAny, armHgetAny, armHdelAny, armHlenExtra,
      armSave]
  · simp [parseTokens, parseArms, applyArms, armSetEx, armSet3, armGet,
      armDel, armLpush, armRpush, armLrange, armHset, armHget, armHdel,
      armHlen, armHgetall, armSet1, armSet2, armSetAny, armGetDelAny,
      armLrangeAny, armHsetAny, armHgetAny, armHdelAny, armHlenExtra,
      armSave]
  · rcases hd : parseU64 d with _ | n <;>
      simp [parseTokens, parseArms, applyArms, armSetEx, armSet3, armGet,
      armDel, armLpush, armRpush, armLrange, armHset, armHget, armHdel,
      armHlen, armHgetall, armSet1, armSet2, armSetAny, armGetDelAny,
      armLrangeAny, armHsetAny, armHgetAny, armHdelAny, armHlenExtra,
      armSave, hd] <;> split_ifs <;> simp
  · simp [parseTokens, parseArms, applyArms, armSetEx, armSet3, armGet,
      armDel, armLpush, armRpush, armLrange, armHset, armHget, armHdel,
      armHlen, armHgetall, armSet1, armSet2, armSetAny, armGetDelAny,
      armLrangeAny, armHsetAny, armHgetAny, armHdelAny, armHlenExtra,
      armSave]

theorem ptUnknown_DEL (rest : List String) :
    parseTokens ("DEL" :: rest) ≠ Except.error ParseError.unknownCommand := by
  rcases rest with _ | ⟨a, _ | ⟨b, _ | ⟨c, _ | ⟨d, _ | ⟨e, ts⟩⟩⟩⟩⟩ <;>
    simp [parseTokens, parseArms, applyArms, armSetEx, armSet3, armGet,
      armDel, armLpush, armRpush, armLrange, armHset, armHget, armHdel,
      armHlen, armHgetall, armSet1, armSet2, armSetAny, armGetDelAny,
      armLrangeAny, armHsetAny, armHgetAny, armHdelAny, armHlenExtra,
      armSave]

theorem ptUnknown_del (rest : List String) :
    parseTokens ("del" :: rest) ≠ Except.error ParseError.unknownCommand := by
  rcases rest with _ | ⟨a, _ | ⟨b, _ | ⟨c, _ | ⟨d, _ | ⟨e, ts⟩⟩⟩⟩⟩ <;>
    simp [parseTokens, parseArms, applyArms, armSetEx, armSet3, armGet,
      armDel, armLpush, armRpush, armLrange, armHset, armHget, armHdel,
      armHlen, armHgetall, armSet1, armSet2, armSetAny, armGetDelAny,
      armLrangeAny, armHsetAny, armHgetAny, armHdelAny, armHlenExtra,
      armSave]

theorem ptUnknown_LPUSH (rest : List String) :
    parseTokens ("LPUSH" :: rest) = Except.error ParseError.unknownCommand ↔ rest = [] := by
  rcases rest with _ | ⟨a, _ | ⟨b, _ | ⟨c, _ | ⟨d, _ | ⟨e, ts⟩⟩⟩⟩⟩ <;>
    simp [parseTokens, parseArms, applyArms, armSetEx, armSet3, armGet,
      armDel, armLpush, armRpush, armLrange, armHset, armHget, armHdel,
      armHlen, armHgetall, armSet1, armSet2, armSetAny, armGetDelAny,
      armLrangeAny, armHsetAny, armHgetAny, armHdelAny, armHlenExtra,
      armSave]

theorem ptUnknown_lpush (rest : List String) :
    parseTokens ("lpush" :: rest) = Except.error ParseError.unknownCommand ↔ rest = [] := by
  rcases rest with _ | ⟨a, _ | ⟨b, _ | ⟨c, _ | ⟨d, _ | ⟨e, ts⟩⟩⟩⟩⟩ <;>
    simp [parseTokens, parseArms, applyArms, armSetEx, armSet3, armGet,
      armDel, armLpush, armRpush, armLrange, armHset, armHget, armHdel,
      armHlen, armHgetall, armSet1, armSet2, armSetAny, armGetDelAny,
      armLrangeAny, armHsetAny, armHgetAny, armHdelAny, armHlenExtra,
      armSave]

theorem ptUnknown_RPUSH (rest : List String) :
    parseTokens ("RPUSH" :: rest) = Except.error ParseError.unknownCommand ↔ rest = [] := by
  rcases rest with _ | ⟨a, _ | ⟨b, _ | ⟨c, _ | ⟨d, _ | ⟨e, ts⟩⟩⟩⟩⟩ <;>
    simp [parseTokens, parseArms, applyArms, armSetEx, armSet3, armGet,
      armDel, armLpush, armRpush, armLrange, armHset, armHget, armHdel,
      armHlen, armHgetall, armSet1, armSet2, armSetAny, armGetDelAny,
      armLrangeAny, armHsetAny, armHgetAny, armHdelAny, armHlenExtra,
      armSave]

theorem ptUnknown_rpush (rest : List String) :
    parseTokens ("rpush" :: rest) = Except.error ParseError.unknownCommand ↔ rest = [] := by
  rcases rest with _ | ⟨a, _ | ⟨b, _ | ⟨c, _ | ⟨d, _ | ⟨e, ts⟩⟩⟩⟩⟩ <;>
    simp [parseTokens, parseArms, applyArms, armSetEx, armSet3, armGet,
      armDel, armLpush, armRpush, armLrange, armHset, armHget, armHdel,
      armHlen, armHgetall, armSet1, armSet2, armSetAny, armGetDelAny,
      armLrangeAny, armHsetAny, armHgetAny, armHdelAny, armHlenExtra,
      armSave]

theorem ptUnknown_LRANGE (rest : List String) :
    parseTokens ("LRANGE" :: rest) ≠ Except.error ParseError.unknownCommand := by
  rcases rest with _ | ⟨a, _ | ⟨b, _ | ⟨c, _ | ⟨d, _ | ⟨e, ts⟩⟩⟩⟩⟩
  · simp [parseTokens, parseArms, applyArms, armSetEx, armSet3, armGet,
      armDel, armLpush, armRpush, armLrange, armHset, armHget, armHdel,
      armHlen, armHgetall, armSet1, armSet2, armSetAny, armGetDelAny,
      armLrangeAny, armHsetAny, armHgetAny, armHdelAny, armHlenExtra,
      armSave]
  · simp [parseTokens, parseArms, applyArms, armSetEx, armSet3, armGet,
      armDel, armLpush, armRpush, armLrange, armHset, armHget, armHdel,
      armHlen, armHgetall, armSet1, armSet2, armSetAny, armGetDelAny,
      armLrangeAny, armHsetAny, armHgetAny, armHdelAny, armHlenExtra,
      armSave]
  · rcases hb : parseI64 b with _ | x <;> simp [parseTokens, parseArms, applyArms, armSetEx, armSet3, armGet,
      armDel, armLpush, armRpush, armLrange, armHset, armHget, armHdel,
      armHlen, armHgetall, armSet1, armSet2, armSetAny, armGetDelAny,
      armLrangeAny, armHsetAny, armHgetAny, armHdelAny, armHlenExtra,
      armSave, hb]
  · rcases hb : parseI64 b with _ | x <;>
      rcases hc : parseI64 c with _ | y <;> simp [parseTokens, parseArms, applyArms, armSetEx, armSet3, armGet,
      armDel, armLpush, armRpush, armLrange, armHset, armHget, armHdel,
      armHlen, armHgetall, armSet1, armSet2, armSetAny, armGetDelAny,
      armLrangeAny, armHsetAny, armHgetAny, armHdelAny, armHlenExtra,
      armSave, hb, hc]
  · simp [parseTokens, parseArms, applyArms, armSetEx, armSet3, armGet,
      armDel, armLpush, armRpush, armLrange, armHset, armHget, armHdel,
      armHlen, armHgetall, armSet1, armSet2, armSetAny, armGetDelAny,
      armLrangeAny, armHsetAny, armHgetAny, armHdelAny, armHlenExtra,
      armSave]
  · simp [parseTokens, parseArms, applyArms, armSetEx, armSet3, armGet,
      armDel, armLpush, armRpush, armLrange, armHset, armHget, armHdel,
      armHlen, armHgetall, armSet1, armSet2, armSetAny, armGetDelAny,
      armLrangeAny, armHsetAny, armHgetAny, armHdelAny, armHlenExtra,
      armSave]

theorem ptUnknown_lrange (rest : List String) :
    parseTokens ("lrange" :: rest) ≠ Except.error ParseError.unknownCommand := by
  rcases rest with _ | ⟨a, _ | ⟨b, _ | ⟨c, _ | ⟨d, _ | ⟨e, ts⟩⟩⟩⟩⟩
  · simp [parseTokens, parseArms, applyArms, armSetEx, armSet3, armGet,
      armDel, armLpush, armRpush, armLrange, armHset, armHget, armHdel,
      armHlen, armHgetall, armSet1, armSet2, armSetAny, armGetDelAny,
      armLrangeAny, armHsetAny, armHgetAny, armHdelAny, armHlenExtra,
      armSave]
  · simp [parseTokens, parseArms, applyArms, armSetEx, armSet3, armGet,
      armDel, armLpush, armRpush, armLrange, armHset, armHget, armHdel,
      armHlen, armHgetall, armSet1, armSet2, armSetAny, armGetDelAny,
      armLrangeAny, armHsetAny, armHgetAny, armHdelAny, armHlenExtra,
      armSave]
  · rcases hb : parseI64 b with _ | x <;> simp [parseTokens, parseArms, applyArms, armSetEx, armSet3, armGet,
      armDel, armLpush, armRpush, armLrange, armHset, armHget, armHdel,
      armHlen, armHgetall, armSet1, armSet2, armSetAny, armGetDelAny,
      armLrangeAny, armHsetAny, armHgetAny, armHdelAny, armHlenExtra,
      armSave, hb]
  · rcases hb : parseI64 b with _ | x <;>
      rcases hc : parseI64 c with _ | y <;> simp [parseTokens, parseArms, applyArms, armSetEx, armSet3, armGet,
      armDel, armLpush, armRpush, armLrange, armHset, armHget, armHdel,
      armHlen, armHgetall, armSet1, armSet2, armSetAny, armGetDelAny,
      armLrangeAny, armHsetAny, armHgetAny, armHdelAny, armHlenExtra,
      armSave, hb, hc]
  · simp [parseTokens, parseArms, applyArms, armSetEx, armSet3, armGet,
      armDel, armLpush, armRpush, armLrange, armHset, armHget, armHdel,
      armHlen, armHgetall, armSet1, armSet2, armSetAny, armGetDelAny,
      armLrangeAny, armHsetAny, armHgetAny, armHdelAny, armHlenExtra,
      armSave]
  · simp [parseTokens, parseArms, applyArms, armSetEx, armSet3, armGet,
      armDel, armLpush, armRpush, armLrange, armHset, armHget, armHdel,
      armHlen, armHgetall, armSet1, armSet2, armSetAny, armGetDelAny,
      armLrangeAny, armHsetAny, armHgetAny, armHdelAny, armHlenExtra,
      armSave]

theorem ptUnknown_HSET (rest : List String) :
    parseTokens ("HSET" :: rest) ≠ Except.error ParseError.unknownCommand := by
  rcases rest with _ | ⟨a, _ | ⟨b, _ | ⟨c, _ | ⟨d, _ | ⟨e, ts⟩⟩⟩⟩⟩ <;>
    simp [parseTokens, parseArms, applyArms, armSetEx, armSet3, armGet,
      armDel, armLpush, armRpush, armLrange, armHset, armHget, armHdel,
      armHlen, armHgetall, armSet1, armSet2, armSetAny, armGetDelAny,
      armLrangeAny, armHsetAny, armHgetAny, armHdelAny, armHlenExtra,
      armSave]

theorem ptUnknown_hset (rest : List String) :
    parseTokens ("hset" :: rest) ≠ Except.error ParseError.unknownCommand := by
  rcases rest with _ | ⟨a, _ | ⟨b, _ | ⟨c, _ | ⟨d, _ | ⟨e, ts⟩⟩⟩⟩⟩ <;>
    simp [parseTokens, parseArms, applyArms, armSetEx, armSet3, armGet,
      armDel, armLpush, armRpush, armLrange, armHset, armHget, armHdel,
      armHlen, armHgetall, armSet1, armSet2, armSetAny, armGetDelAny,
      armLrangeAny, armHsetAny, armHgetAny, armHdelAny, armHlenExtra,
      armSave]

theorem ptUnknown_HGET (rest : List String) :
    parseTokens ("HGET" :: rest) ≠ Except.error ParseError.unknownCommand := by
  rcases rest with _ | ⟨a, _ | ⟨b, _ | ⟨c, _ | ⟨d, _ | ⟨e, ts⟩⟩⟩⟩⟩ <;>
    simp [parseTokens, parseArms, applyArms, armSetEx, armSet3, armGet,
      armDel, armLpush, armRpush, armLrange, armHset, armHget, armHdel,
      armHlen, armHgetall, armSet1, armSet2, armSetAny, armGetDelAny,
      armLrangeAny, armHsetAny, armHgetAny, armHdelAny, armHlenExtra,
      armSave]

theorem ptUnknown_hget (rest : List String) :
    parseTokens ("hget" :: rest) ≠ Except.error ParseError.unknownCommand := by
  rcases rest with _ | ⟨a, _ | ⟨b, _ | ⟨c, _ | ⟨d, _ | ⟨e, ts⟩⟩⟩⟩⟩ <;>
    simp [parseTokens, parseArms, applyArms, armSetEx, armSet3, armGet,
      armDel, armLpush, armRpush, armLrange, armHset, armHget, armHdel,
      armHlen, armHgetall, armSet1, armSet2, armSetAny, armGetDelAny,
      armLrangeAny, armHsetAny, armHgetAny, armHdelAny, armHlenExtra,
      armSave]

theorem ptUnknown_HDEL (rest : List String) :
    parseTokens ("HDEL" :: rest) ≠ Except.error ParseError.unknownCommand := by
  rcases rest with _ | ⟨a, _ | ⟨b, _ | ⟨c, _ | ⟨d, _ | ⟨e, ts⟩⟩⟩⟩⟩ <;>
    simp [parseTokens, parseArms, applyArms, armSetEx, armSet3, armGet,
      armDel, armLpush, armRpush, armLrange, armHset, armHget, armHdel,
      armHlen, armHgetall, armSet1, armSet2, armSetAny, armGetDelAny,
      armLrangeAny, armHsetAny, armHgetAny, armHdelAny, armHlenExtra,
      armSave]

theorem ptUnknown_hdel (rest : List String) :
    parseTokens ("hdel" :: rest) ≠ Except.error ParseError.unknownCommand := by
  rcases rest with _ | ⟨a, _ | ⟨b, _ | ⟨c, _ | ⟨d, _ | ⟨e, ts⟩⟩⟩⟩⟩ <;>
    simp [parseTokens, parseArms, applyArms, armSetEx, armSet3, armGet,
      armDel, armLpush, armRpush, armLrange, armHset, armHget, armHdel,
      armHlen, armHgetall, armSet1, armSet2, armSetAny, armGetDelAny,
      armLrangeAny, armHsetAny, armHgetAny, armHdelAny, armHlenExtra,
      armSave]

theorem ptUnknown_HLEN (rest : List String) :
    parseTokens ("HLEN" :: rest) = Except.error ParseError.unknownCommand ↔ rest = [] := by
  rcases rest with _ | ⟨a, _ | ⟨b, _ | ⟨c, _ | ⟨d, _ | ⟨e, ts⟩⟩⟩⟩⟩ <;>
    simp [parseTokens, parseArms, applyArms, armSetEx, armSet3, armGet,
      armDel, armLpush, armRpush, armLrange, armHset, armHget, armHdel,
      armHlen, armHgetall, armSet1, armSet2, armSetAny, armGetDelAny,
      armLrangeAny, armHsetAny, armHgetAny, armHdelAny, armHlenExtra,
      armSave]

theorem ptUnknown_hlen (rest : List String) :
    parseTokens ("hlen" :: rest) = Except.error ParseError.unknownCommand ↔ rest = [] := by
  rcases rest with _ | ⟨a, _ | ⟨b, _ | ⟨c, _ | ⟨d, _ | ⟨e, ts⟩⟩⟩⟩⟩ <;>
    simp [parseTokens, parseArms, applyArms, armSetEx, armSet3, armGet,
      armDel, armLpush, armRpush, armLrange, armHset, armHget, armHdel,
      armHlen, armHgetall, armSet1, armSet2, armSetAny, armGetDelAny,
      armLrangeAny, armHsetAny, armHgetAny, armHdelAny, armHlenExtra,
      armSave]

theorem ptUnknown_HGETALL (rest : List String) :
    parseTokens ("HGETALL" :: rest) ≠ Except.error ParseError.unknownCommand := by
  rcases rest with _ | ⟨a, _ | ⟨b, _ | ⟨c, _ | ⟨d, _ | ⟨e, ts⟩⟩⟩⟩⟩ <;>
    simp [parseTokens, parseArms, applyArms, armSetEx, armSet3, armGet,
      armDel, armLpush, armRpush, armLrange, armHset, armHget, armHdel,
      armHlen, armHgetall, armSet1, armSet2, armSetAny, armGetDelAny,
      armLrangeAny, armHsetAny, armHgetAny, armHdelAny, armHlenExtra,
      armSave]

theorem ptUnknown_hgetall (rest : List String) :
    parseTokens ("hgetall" :: rest) ≠ Except.error ParseError.unknownCommand := by
  rcases rest with _ | ⟨a, _ | ⟨b, _ | ⟨c, _ | ⟨d, _ | ⟨e, ts⟩⟩⟩⟩⟩ <;>
    simp [parseTokens, parseArms, applyArms, armSetEx, armSet3, armGet,
      armDel, armLpush, armRpush, armLrange, armHset, armHget, armHdel,
      armHlen, armHgetall, armSet1, armSet2, armSetAny, armGetDelAny,
      armLrangeAny, armHsetAny, armHgetAny, armHdelAny, armHlenExtra,
      armSave]

theorem ptUnknown_SAVE (rest : List String) :
    parseTokens ("SAVE" :: rest) = Except.error ParseError.unknownCommand ↔ rest ≠ [] := by
  rcases rest with _ | ⟨a, _ | ⟨b, _ | ⟨c, _ | ⟨d, _ | ⟨e, ts⟩⟩⟩⟩⟩ <;>
    simp [parseTokens, parseArms, applyArms, armSetEx, armSet3, armGet,
      armDel, armLpush, armRpush, armLrange, armHset, armHget, armHdel,
      armHlen, armHgetall, armSet1, armSet2, armSetAny, armGetDelAny,
      armLrangeAny, armHsetAny, armHgetAny, armHdelAny, armHlenExtra,
      armSave]

theorem ptUnknown_save (rest : List String) :
    parseTokens ("save" :: rest) = Except.error ParseError.unknownCommand ↔ rest ≠ [] := by
  rcases rest with _ | ⟨a, _ | ⟨b, _ | ⟨c, _ | ⟨d, _ | ⟨e, ts⟩⟩⟩⟩⟩ <;>
    simp [parseTokens, parseArms, applyArms, armSetEx, armSet3, armGet,
      armDel, armLpush, armRpush, armLrange, armHset, armHget, armHdel,
      armHlen, armHgetall, armSet1, armSet2, armSetAny, armGetDelAny,
      armLrangeAny, armHsetAny, armHgetAny, armHdelAny, armHlenExtra,
      armSave]

/-- C2 counterexample: the mixed-case verb token "Get" does not parse
    like "GET": the former is an unknown command while the latter parses,
    so verb matching is not case-insensitive for arbitrary case
    variants. -/
theorem verb_mixed_case_counterexample :
    Command.parse (asciiBytes "GET k") = Except.ok (Command.get "k") ∧
    Command.parse (asciiBytes "Get k") =
      Except.error ParseError.unknownCommand ∧
    Command.parse (asciiBytes "Get k") ≠ Command.parse (asciiBytes "GET k") :=
  ⟨by decide, by decide, by decide⟩

/-- Verbs recognized by some arm of Command::parse, in both accepted
    spellings. -/
def recognizedVerbs : List String :=
  ["GET", "get", "SET", "set", "DEL", "del", "LPUSH", "lpush",
   "RPUSH", "rpush", "LRANGE", "lrange", "HSET", "hset", "HGET", "hget",
   "HDEL", "hdel", "HLEN", "hlen", "HGETALL", "hgetall", "SAVE", "save"]

/-- C3 counterexample: SAVE followed by an extra token yields
    UnknownCommand, not an InvalidArgument usage message, because no
    fall-through arm exists for SAVE. -/
theorem save_extra_token_counterexample :
    Command.parse (asciiBytes "SAVE extra") =
      Except.error ParseError.unknownCommand ∧
    ∀ msg, Command.parse (asciiBytes "SAVE extra") ≠
      Except.error (ParseError.invalidArgument msg) := by
  have h : Command.parse (asciiBytes "SAVE extra") =
      Except.error ParseError.unknownCommand := by decide
  exact ⟨h, fun msg hmsg =>
    ParseError.noConfusion (Except.error.inj ((h ▸ hmsg : Except.error
      ParseError.unknownCommand = Except.error
      (ParseError.invalidArgument msg))))⟩

/-- Helper: for a token list headed by a recognized verb, the parse
    result is UnknownCommand exactly when the verb is SAVE with at least
    one further token, or the verb is LPUSH, RPUSH or HLEN with no
    further tokens. -/
theorem ptUnknownIff (v : String) (rest : List String)
    (hv : v ∈ recognizedVerbs) :
    (parseTokens (v :: rest) = Except.error ParseError.unknownCommand ↔
      ((v = "SAVE" ∨ v = "save") ∧ rest ≠ []) ∨
      ((v = "LPUSH" ∨ v = "lpush" ∨ v = "RPUSH" ∨ v = "rpush" ∨
        v = "HLEN" ∨ v = "hlen") ∧ rest = [])) := by
  simp only [recognizedVerbs, List.mem_cons, List.not_mem_nil, or_false] at hv
  rcases hv with rfl | rfl | rfl | rfl | rfl | rfl | rfl | rfl | rfl | rfl |
    rfl | rfl | rfl | rfl | rfl | rfl | rfl | rfl | rfl | rfl | rfl | rfl |
    rfl | rfl <;>
    simp [ptUnknown_GET, ptUnknown_get, ptUnknown_SET, ptUnknown_set,
      ptUnknown_DEL, ptUnknown_del, ptUnknown_LPUSH, ptUnknown_lpush,
      ptUnknown_RPUSH, ptUnknown_rpush, ptUnknown_LRANGE, ptUnknown_lrange,
      ptUnknown_HSET, ptUnknown_hset, ptUnknown_HGET, ptUnknown_hget,
      ptUnknown_HDEL, ptUnknown_hdel, ptUnknown_HLEN, ptUnknown_hlen,
      ptUnknown_HGETALL, ptUnknown_hgetall, ptUnknown_SAVE, ptUnknown_save]

/-- Well-formed argument lists per the spec's command table (syntax
    column of the command grammar): GET/DEL/HLEN/HGETALL take exactly one
    argument, SET takes key and value with an optional EX seconds suffix
    whose seconds parse as u64, LPUSH/RPUSH/HDEL take a key and at least
    one value/field, LRANGE takes a key and two signed integers, HSET
    takes exactly three arguments, HGET two, SAVE none. -/
def wellFormedArgs (v : String) (rest : List String) : Bool :=
  ((["GET", "get", "DEL", "del", "HLEN", "hlen", "HGETALL", "hgetall"] :
      List String).contains v && rest.length == 1) ||
  ((["SET", "set"] : List String).contains v &&
    (rest.length == 2 ||
      match rest with
      | [_, _, e, s] => (e == "EX" || e == "ex") && (parseU64 s).isSome
      | _ => false)) ||
  ((["LPUSH", "lpush", "RPUSH", "rpush", "HDEL", "hdel"] :
      List String).contains v &&
    match rest with
    | _ :: _ :: _ => true
    | _ => false) ||
  ((["LRANGE", "lrange"] : List String).contains v &&
    match rest with
    | [_, b, c] => (parseI64 b).isSome && (parseI64 c).isSome
    | _ => false) ||
  ((["HSET", "hset"] : List String).contains v && rest.length == 3) ||
  ((["HGET", "hget"] : List String).contains v && rest.length == 2) ||
  ((["SAVE", "save"] : List String).contains v && rest == [])

theorem ptOk_GET (rest : List String) :
    (∃ c, parseTokens ("GET" :: rest) = Except.ok c) ↔
      wellFormedArgs "GET" rest = true := by
  rcases rest with _ | ⟨a, _ | ⟨b, _ | ⟨c, _ | ⟨d, _ | ⟨e, ts⟩⟩⟩⟩⟩ <;>
    simp [parseTokens, parseArms, applyArms, armSetEx, armSet3, armGet,
      armDel, armLpush, armRpush, armLrange, armHset, armHget, armHdel,
      armHlen, armHgetall, armSet1, armSet2, armSetAny, armGetDelAny,
      armLrangeAny, armHsetAny, armHgetAny, armHdelAny, armHlenExtra,
      armSave, wellFormedArgs]

theorem ptOk_get (rest : List String) :
    (∃ c, parseTokens ("get" :: rest) = Except.ok c) ↔
      wellFormedArgs "get" rest = true := by
  rcases rest with _ | ⟨a, _ | ⟨b, _ | ⟨c, _ | ⟨d, _ | ⟨e, ts⟩⟩⟩⟩⟩ <;>
    simp [parseTokens, parseArms, applyArms, armSetEx, armSet3, armGet,
      armDel, armLpush, armRpush, armLrange, armHset, armHget, armHdel,
      armHlen, armHgetall, armSet1, armSet2, armSetAny, armGetDelAny,
      armLrangeAny, armHsetAny, armHgetAny, armHdelAny, armHlenExtra,
      armSave, wellFormedArgs]

theorem ptOk_SET (rest : List String) :
    (∃ c, parseTokens ("SET" :: rest) = Except.ok c) ↔
      wellFormedArgs "SET" rest = true := by
  rcases rest with _ | ⟨a, _ | ⟨b, _ | ⟨c, _ | ⟨d, _ | ⟨e, ts⟩⟩⟩⟩⟩
  · simp [parseTokens, parseArms, applyArms, armSetEx, armSet3, armGet,
      armDel, armLpush, armRpush, armLrange, armHset, armHget, armHdel,
      armHlen, armHgetall, armSet1, armSet2, armSetAny, armGetDelAny,
      armLrangeAny, armHsetAny, armHgetAny, armHdelAny, armHlenExtra,
      armSave, wellFormedArgs]
  · simp [parseTokens, parseArms, applyArms, armSetEx, armSet3, armGet,
      armDel, armLpush, armRpush, armLrange, armHset, armHget, armHdel,
      armHlen, armHgetall, armSet1, armSet2, armSetAny, armGetDelAny,
      armLrangeAny, armHsetAny, armHgetAny, armHdelAny, armHlenExtra,
      armSave, wellFormedArgs]
  · simp [parseTokens, parseArms, applyArms, armSetEx, armSet3, armGet,
      armDel, armLpush, armRpush, armLrange, armHset, armHget, armHdel,
      armHlen, armHgetall, armSet1, armSet2, armSetAny, armGetDelAny,
      armLrangeAny, armHsetAny, armHgetAny, armHdelAny, armHlenExtra,
      armSave, wellFormedArgs]
  · simp [parseTokens, parseArms, applyArms, armSetEx, armSet3, armGet,
      armDel, armLpush, armRpush, armLrange, armHset, armHget, armHdel,
      armHlen, armHgetall, armSet1, armSet2, armSetAny, armGetDelAny,
      armLrangeAny, armHsetAny, armHgetAny, armHdelAny, armHlenExtra,
      armSave, wellFormedArgs]
  · rcases hd : parseU64 d with _ | n <;>
      simp [parseTokens, parseArms, applyArms, armSetEx, armSet3, armGet,
      armDel, armLpush, armRpush, armLrange, armHset, armHget, armHdel,
      armHlen, armHgetall, armSet1, armSet2, armSetAny, armGetDelAny,
      armLrangeAny, armHsetAny, armHgetAny, armHdelAny, armHlenExtra,
      armSave, wellFormedArgs, hd] <;> split_ifs <;> simp_all
  · simp [parseTokens, parseArms, applyArms, armSetEx, armSet3, armGet,
      armDel, armLpush, armRpush, armLrange, armHset, armHget, armHdel,
      armHlen, armHgetall, armSet1, armSet2, armSetAny, armGetDelAny,
      armLrangeAny, armHsetAny, armHgetAny, armHdelAny, armHlenExtra,
      armSave, wellFormedArgs]

theorem ptOk_set (rest : List String) :
    (∃ c, parseTokens ("set" :: rest) = Except.ok c) ↔
      wellFormedArgs "set" rest = true := by
  rcases rest with _ | ⟨a, _ | ⟨b, _ | ⟨c, _ | ⟨d, _ | ⟨e, ts⟩⟩⟩⟩⟩
  · simp [parseTokens, parseArms, applyArms, armSetEx, armSet3, armGet,
      armDel, armLpush, armRpush, armLrange, armHset, armHget, armHdel,
      armHlen, armHgetall, armSet1, armSet2, armSetAny, armGetDelAny,
      armLrangeAny, armHsetAny, armHgetAny, armHdelAny, armHlenExtra,
      armSave, wellFormedArgs]
  · simp [parseTokens, parseArms, applyArms, armSetEx, armSet3, armGet,
      armDel, armLpush, armRpush, armLrange, armHset, armHget, armHdel,
      armHlen, armHgetall, armSet1, armSet2, armSetAny, armGetDelAny,
      armLrangeAny, armHsetAny, armHgetAny, armHdelAny, armHlenExtra,
      armSave, wellFormedArgs]
  · simp [parseTokens, parseArms, applyArms, armSetEx, armSet3, armGet,
      armDel, armLpush, armRpush, armLrange, armHset, armHget, armHdel,
      armHlen, armHgetall, armSet1, armSet2, armSetAny, armGetDelAny,
      armLrangeAny, armHsetAny, armHgetAny, armHdelAny, armHlenExtra,
      armSave, wellFormedArgs]
  · simp [parseTokens, parseArms, applyArms, armSetEx, armSet3, armGet,
      armDel, armLpush, armRpush, armLrange, armHset, armHget, armHdel,
      armHlen, armHgetall, armSet1, armSet2, armSetAny, armGetDelAny,
      armLrangeAny, armHsetAny, armHgetAny, armHdelAny, armHlenExtra,
      armSave, wellFormedArgs]
  · rcases hd : parseU64 d with _ | n <;>
      simp [parseTokens, parseArms, applyArms, armSetEx, armSet3, armGet,
      armDel, armLpush, armRpush, armLrange, armHset, armHget, armHdel,
      armHlen, armHgetall, armSet1, armSet2, armSetAny, armGetDelAny,
      armLrangeAny, armHsetAny, armHgetAny, armHdelAny, armHlenExtra,
      armSave, wellFormedArgs, hd] <;> split_ifs <;> simp_all
  · simp [parseTokens, parseArms, applyArms, armSetEx, armSet3, armGet,
      armDel, armLpush, armRpush, armLrange, armHset, armHget, armHdel,
      armHlen, armHgetall, armSet1, armSet2, armSetAny, armGetDelAny,
      armLrangeAny, armHsetAny, armHgetAny, armHdelAny, armHlenExtra,
      armSave, wellFormedArgs]

theorem ptOk_DEL (rest : List String) :
    (∃ c, parseTokens ("DEL" :: rest) = Except.ok c) ↔
      wellFormedArgs "DEL" rest = true := by
  rcases rest with _ | ⟨a, _ | ⟨b, _ | ⟨c, _ | ⟨d, _ | ⟨e, ts⟩⟩⟩⟩⟩ <;>
    simp [parseTokens, parseArms, applyArms, armSetEx, armSet3, armGet,
      armDel, armLpush, armRpush, armLrange, armHset, armHget, armHdel,
      armHlen, armHgetall, armSet1, armSet2, armSetAny, armGetDelAny,
      armLrangeAny, armHsetAny, armHgetAny, armHdelAny, armHlenExtra,
      armSave, wellFormedArgs]

theorem ptOk_del (rest : List String) :
    (∃ c, parseTokens ("del" :: rest) = Except.ok c) ↔
      wellFormedArgs "del" rest = true := by
  rcases rest with _ | ⟨a, _ | ⟨b, _ | ⟨c, _ | ⟨d, _ | ⟨e, ts⟩⟩⟩⟩⟩ <;>
    simp [parseTokens, parseArms, applyArms, armSetEx, armSet3, armGet,
      armDel, armLpush, armRpush, armLrange, armHset, armHget, armHdel,
      armHlen, armHgetall, armSet1, armSet2, armSetAny, armGetDelAny,
      armLrangeAny, armHsetAny, armHgetAny, armHdelAny, armHlenExtra,
      armSave, wellFormedArgs]

theorem ptOk_LPUSH (rest : List String) :
    (∃ c, parseTokens ("LPUSH" :: rest) = Except.ok c) ↔
      wellFormedArgs "LPUSH" rest = true := by
  rcases rest with _ | ⟨a, _ | ⟨b, _ | ⟨c, _ | ⟨d, _ | ⟨e, ts⟩⟩⟩⟩⟩ <;>
    simp [parseTokens, parseArms, applyArms, armSetEx, armSet3, armGet,
      armDel, armLpush, armRpush, armLrange, armHset, armHget, armHdel,
      armHlen, armHgetall, armSet1, armSet2, armSetAny, armGetDelAny,
      armLrangeAny, armHsetAny, armHgetAny, armHdelAny, armHlenExtra,
      armSave, wellFormedArgs]

theorem ptOk_lpush (rest : List String) :
    (∃ c, parseTokens ("lpush" :: rest) = Except.ok c) ↔
      wellFormedArgs "lpush" rest = true := by
  rcases rest with _ | ⟨a, _ | ⟨b, _ | ⟨c, _ | ⟨d, _ | ⟨e, ts⟩⟩⟩⟩⟩ <;>
    simp [parseTokens, parseArms, applyArms, armSetEx, armSet3, armGet,
      armDel, armLpush, armRpush, armLrange, armHset, armHget, armHdel,
      armHlen, armHgetall, armSet1, armSet2, armSetAny, armGetDelAny,
      armLrangeAny, armHsetAny, armHgetAny, armHdelAny, armHlenExtra,
      armSave, wellFormedArgs]

theorem ptOk_RPUSH (rest : List String) :
    (∃ c, parseTokens ("RPUSH" :: rest) = Except.ok c) ↔
      wellFormedArgs "RPUSH" rest = true := by
  rcases rest with _ | ⟨a, _ | ⟨b, _ | ⟨c, _ | ⟨d, _ | ⟨e, ts⟩⟩⟩⟩⟩ <;>
    simp [parseTokens, parseArms, applyArms, armSetEx, armSet3, armGet,
      armDel, armLpush, armRpush, armLrange, armHset, armHget, armHdel,
      armHlen, armHgetall, armSet1, armSet2, armSetAny, armGetDelAny,
      armLrangeAny, armHsetAny, armHgetAny, armHdelAny, armHlenExtra,
      armSave, wellFormedArgs]

theorem ptOk_rpush (rest : List String) :
    (∃ c, parseTokens ("rpush" :: rest) = Except.ok c) ↔
      wellFormedArgs "rpush" rest = true := by
  rcases rest with _ | ⟨a, _ | ⟨b, _ | ⟨c, _ | ⟨d, _ | ⟨e, ts⟩⟩⟩⟩⟩ <;>
    simp [parseTokens, parseArms, applyArms, armSetEx, armSet3, armGet,
      armDel, armLpush, armRpush, armLrange, armHset, armHget, armHdel,
      armHlen, armHgetall, armSet1, armSet2, armSetAny, armGetDelAny,
      armLrangeAny, armHsetAny, armHgetAny, armHdelAny, armHlenExtra,
      armSave, wellFormedArgs]

theorem ptOk_LRANGE (rest : List String) :
    (∃ c, parseTokens ("LRANGE" :: rest) = Except.ok c) ↔
      wellFormedArgs "LRANGE" rest = true := by
  rcases rest with _ | ⟨a, _ | ⟨b, _ | ⟨c, _ | ⟨d, _ | ⟨e, ts⟩⟩⟩⟩⟩
  · simp [parseTokens, parseArms, applyArms, armSetEx, armSet3, armGet,
      armDel, armLpush, armRpush, armLrange, armHset, armHget, armHdel,
      armHlen, armHgetall, armSet1, armSet2, armSetAny, armGetDelAny,
      armLrangeAny, armHsetAny, armHgetAny, armHdelAny, armHlenExtra,
      armSave, wellFormedArgs]
  · simp [parseTokens, parseArms, applyArms, armSetEx, armSet3, armGet,
      armDel, armLpush, armRpush, armLrange, armHset, armHget, armHdel,
      armHlen, armHgetall, armSet1, armSet2, armSetAny, armGetDelAny,
      armLrangeAny, armHsetAny, armHgetAny, armHdelAny, armHlenExtra,
      armSave, wellFormedArgs]
  · simp [parseTokens, parseArms, applyArms, armSetEx, armSet3, armGet,
      armDel, armLpush, armRpush, armLrange, armHset, armHget, armHdel,
      armHlen, armHgetall, armSet1, armSet2, armSetAny, armGetDelAny,
      armLrangeAny, armHsetAny, armHgetAny, armHdelAny, armHlenExtra,
      armSave, wellFormedArgs]
  · rcases hb : parseI64 b with _ | x <;>
      rcases hc : parseI64 c with _ | y <;>
      simp [parseTokens, parseArms, applyArms, armSetEx, armSet3, armGet,
      armDel, armLpush, armRpush, armLrange, armHset, armHget, armHdel,
      armHlen, armHgetall, armSet1, armSet2, armSetAny, armGetDelAny,
      armLrangeAny, armHsetAny, armHgetAny, armHdelAny, armHlenExtra,
      armSave, wellFormedArgs, hb, hc]
  · simp [parseTokens, parseArms, applyArms, armSetEx, armSet3, armGet,
      armDel, armLpush, armRpush, armLrange, armHset, armHget, armHdel,
      armHlen, armHgetall, armSet1, armSet2, armSetAny, armGetDelAny,
      armLrangeAny, armHsetAny, armHgetAny, armHdelAny, armHlenExtra,
      armSave, wellFormedArgs]
  · simp [parseTokens, parseArms, applyArms, armSetEx, armSet3, armGet,
      armDel, armLpush, armRpush, armLrange, armHset, armHget, armHdel,
      armHlen, armHgetall, armSet1, armSet2, armSetAny, armGetDelAny,
      armLrangeAny, armHsetAny, armHgetAny, armHdelAny, armHlenExtra,
      armSave, wellFormedArgs]

theorem ptOk_lrange (rest : List String) :
    (∃ c, parseTokens ("lrange" :: rest) = Except.ok c) ↔
      wellFormedArgs "lrange" rest = true := by
  rcases rest with _ | ⟨a, _ | ⟨b, _ | ⟨c, _ | ⟨d, _ | ⟨e, ts⟩⟩⟩⟩⟩
  · simp [parseTokens, parseArms, applyArms, armSetEx, armSet3, armGet,
      armDel, armLpush, armRpush, armLrange, armHset, armHget, armHdel,
      armHlen, armHgetall, armSet1, armSet2, armSetAny, armGetDelAny,
      armLrangeAny, armHsetAny, armHgetAny, armHdelAny, armHlenExtra,
      armSave, wellFormedArgs]
  · simp [parseTokens, parseArms, applyArms, armSetEx, armSet3, armGet,
      armDel, armLpush, armRpush, armLrange, armHset, armHget, armHdel,
      armHlen, armHgetall, armSet1, armSet2, armSetAny, armGetDelAny,
      armLrangeAny, armHsetAny, armHgetAny, armHdelAny, armHlenExtra,
      armSave, wellFormedArgs]
  · simp [parseTokens, parseArms, applyArms, armSetEx, armSet3, armGet,
      armDel, armLpush, armRpush, armLrange, armHset, armHget, armHdel,
      armHlen, armHgetall, armSet1, armSet2, armSetAny, armGetDelAny,
      armLrangeAny, armHsetAny, armHgetAny, armHdelAny, armHlenExtra,
      armSave, wellFormedArgs]
  · rcases hb : parseI64 b with _ | x <;>
      rcases hc : parseI64 c with _ | y <;>
      simp [parseTokens, parseArms, applyArms, armSetEx, armSet3, armGet,
      armDel, armLpush, armRpush, armLrange, armHset, armHget, armHdel,
      armHlen, armHgetall, armSet1, armSet2, armSetAny, armGetDelAny,
      armLrangeAny, armHsetAny, armHgetAny, armHdelAny, armHlenExtra,
      armSave, wellFormedArgs, hb, hc]
  · simp [parseTokens, parseArms, applyArms, armSetEx, armSet3, armGet,
      armDel, armLpush, armRpush, armLrange, armHset, armHget, armHdel,
      armHlen, armHgetall, armSet1, armSet2, armSetAny, armGetDelAny,
      armLrangeAny, armHsetAny, armHgetAny, armHdelAny, armHlenExtra,
      armSave, wellFormedArgs]
  · simp [parseTokens, parseArms, applyArms, armSetEx, armSet3, armGet,
      armDel, armLpush, armRpush, armLrange, armHset, armHget, armHdel,
      armHlen, armHgetall, armSet1, armSet2, armSetAny, armGetDelAny,
      armLrangeAny, armHsetAny, armHgetAny, armHdelAny, armHlenExtra,
      armSave, wellFormedArgs]

theorem ptOk_HSET (rest : List String) :
    (∃ c, parseTokens ("HSET" :: rest) = Except.ok c) ↔
      wellFormedArgs "HSET" rest = true := by
  rcases rest with _ | ⟨a, _ | ⟨b, _ | ⟨c, _ | ⟨d, _ | ⟨e, ts⟩⟩⟩⟩⟩ <;>
    simp [parseTokens, parseArms, applyArms, armSetEx, armSet3, armGet,
      armDel, armLpush, armRpush, armLrange, armHset, armHget, armHdel,
      armHlen, armHgetall, armSet1, armSet2, armSetAny, armGetDelAny,
      armLrangeAny, armHsetAny, armHgetAny, armHdelAny, armHlenExtra,
      armSave, wellFormedArgs]

theorem ptOk_hset (rest : List String) :
    (∃ c, parseTokens ("hset" :: rest) = Except.ok c) ↔
      wellFormedArgs "hset" rest = true := by
  rcases rest with _ | ⟨a, _ | ⟨b, _ | ⟨c, _ | ⟨d, _ | ⟨e, ts⟩⟩⟩⟩⟩ <;>
    simp [parseTokens, parseArms, applyArms, armSetEx, armSet3, armGet,
      armDel, armLpush, armRpush, armLrange, armHset, armHget, armHdel,
      armHlen, armHgetall, armSet1, armSet2, armSetAny, armGetDelAny,
      armLrangeAny, armHsetAny, armHgetAny, armHdelAny, armHlenExtra,
      armSave, wellFormedArgs]

theorem ptOk_HGET (rest : List String) :
    (∃ c, parseTokens ("HGET" :: rest) = Except.ok c) ↔
      wellFormedArgs "HGET" rest = true := by
  rcases rest with _ | ⟨a, _ | ⟨b, _ | ⟨c, _ | ⟨d, _ | ⟨e, ts⟩⟩⟩⟩⟩ <;>
    simp [parseTokens, parseArms, applyArms, armSetEx, armSet3, armGet,
      armDel, armLpush, armRpush, armLrange, armHset, armHget, armHdel,
      armHlen, armHgetall, armSet1, armSet2, armSetAny, armGetDelAny,
      armLrangeAny, armHsetAny, armHgetAny, armHdelAny, armHlenExtra,
      armSave, wellFormedArgs]

theorem ptOk_hget (rest : List String) :
    (∃ c, parseTokens ("hget" :: rest) = Except.ok c) ↔
      wellFormedArgs "hget" rest = true := by
  rcases rest with _ | ⟨a, _ | ⟨b, _ | ⟨c, _ | ⟨d, _ | ⟨e, ts⟩⟩⟩⟩⟩ <;>
    simp [parseTokens, parseArms, applyArms, armSetEx, armSet3, armGet,
      armDel, armLpush, armRpush, armLrange, armHset, armHget, armHdel,
      armHlen, armHgetall, armSet1, armSet2, armSetAny, armGetDelAny,
      armLrangeAny, armHsetAny, armHgetAny, armHdelAny, armHlenExtra,
      armSave, wellFormedArgs]

theorem ptOk_HDEL (rest : List String) :
    (∃ c, parseTokens ("HDEL" :: rest) = Except.ok c) ↔
      wellFormedArgs "HDEL" rest = true := by
  rcases rest with _ | ⟨a, _ | ⟨b, _ | ⟨c, _ | ⟨d, _ | ⟨e, ts⟩⟩⟩⟩⟩ <;>
    simp [parseTokens, parseArms, applyArms, armSetEx, armSet3, armGet,
      armDel, armLpush, armRpush, armLrange, armHset, armHget, armHdel,
      armHlen, armHgetall, armSet1, armSet2, armSetAny, armGetDelAny,
      armLrangeAny, armHsetAny, armHgetAny, armHdelAny, armHlenExtra,
      armSave, wellFormedArgs]

theorem ptOk_hdel (rest : List String) :
    (∃ c, parseTokens ("hdel" :: rest) = Except.ok c) ↔
      wellFormedArgs "hdel" rest = true := by
  rcases rest with _ | ⟨a, _ | ⟨b, _ | ⟨c, _ | ⟨d, _ | ⟨e, ts⟩⟩⟩⟩⟩ <;>
    simp [parseTokens, parseArms, applyArms, armSetEx, armSet3, armGet,
      armDel, armLpush, armRpush, armLrange, armHset, armHget, armHdel,
      armHlen, armHgetall, armSet1, armSet2, armSetAny, armGetDelAny,
      armLrangeAny, armHsetAny, armHgetAny, armHdelAny, armHlenExtra,
      armSave, wellFormedArgs]

theorem ptOk_HLEN (rest : List String) :
    (∃ c, parseTokens ("HLEN" :: rest) = Except.ok c) ↔
      wellFormedArgs "HLEN" rest = true := by
  rcases rest with _ | ⟨a, _ | ⟨b, _ | ⟨c, _ | ⟨d, _ | ⟨e, ts⟩⟩⟩⟩⟩ <;>
    simp [parseTokens, parseArms, applyArms, armSetEx, armSet3, armGet,
      armDel, armLpush, armRpush, armLrange, armHset, armHget, armHdel,
      armHlen, armHgetall, armSet1, armSet2, armSetAny, armGetDelAny,
      armLrangeAny, armHsetAny, armHgetAny, armHdelAny, armHlenExtra,
      armSave, wellFormedArgs]

theorem ptOk_hlen (rest : List String) :
    (∃ c, parseTokens ("hlen" :: rest) = Except.ok c) ↔
      wellFormedArgs "hlen" rest = true := by
  rcases rest with _ | ⟨a, _ | ⟨b, _ | ⟨c, _ | ⟨d, _ | ⟨e, ts⟩⟩⟩⟩⟩ <;>
    simp [parseTokens, parseArms, applyArms, armSetEx, armSet3, armGet,
      armDel, armLpush, armRpush, armLrange, armHset, armHget, armHdel,
      armHlen, armHgetall, armSet1, armSet2, armSetAny, armGetDelAny,
      armLrangeAny, armHsetAny, armHgetAny, armHdelAny, armHlenExtra,
      armSave, wellFormedArgs]

theorem ptOk_HGETALL (rest : List String) :
    (∃ c, parseTokens ("HGETALL" :: rest) = Except.ok c) ↔
      wellFormedArgs "HGETALL" rest = true := by
  rcases rest with _ | ⟨a, _ | ⟨b, _ | ⟨c, _ | ⟨d, _ | ⟨e, ts⟩⟩⟩⟩⟩ <;>
    simp [parseTokens, parseArms, applyArms, armSetEx, armSet3, armGet,
      armDel, armLpush, armRpush, armLrange, armHset, armHget, armHdel,
      armHlen, armHgetall, armSet1, armSet2, armSetAny, armGetDelAny,
      armLrangeAny, armHsetAny, armHgetAny, armHdelAny, armHlenExtra,
      armSave, wellFormedArgs]

theorem ptOk_hgetall (rest : List String) :
    (∃ c, parseTokens ("hgetall" :: rest) = Except.ok c) ↔
      wellFormedArgs "hgetall" rest = true := by
  rcases rest with _ | ⟨a, _ | ⟨b, _ | ⟨c, _ | ⟨d, _ | ⟨e, ts⟩⟩⟩⟩⟩ <;>
    simp [parseTokens, parseArms, applyArms, armSetEx, armSet3, armGet,
      armDel, armLpush, armRpush, armLrange, armHset, armHget, armHdel,
      armHlen, armHgetall, armSet1, armSet2, armSetAny, armGetDelAny,
      armLrangeAny, armHsetAny, armHgetAny, armHdelAny, armHlenExtra,
      armSave, wellFormedArgs]

theorem ptOk_SAVE (rest : List String) :
    (∃ c, parseTokens ("SAVE" :: rest) = Except.ok c) ↔
      wellFormedArgs "SAVE" rest = true := by
  rcases rest with _ | ⟨a, _ | ⟨b, _ | ⟨c, _ | ⟨d, _ | ⟨e, ts⟩⟩⟩⟩⟩ <;>
    simp [parseTokens, parseArms, applyArms, armSetEx, armSet3, armGet,
      armDel, armLpush, armRpush, armLrange, armHset, armHget, armHdel,
      armHlen, armHgetall, armSet1, armSet2, armSetAny, armGetDelAny,
      armLrangeAny, armHsetAny, armHgetAny, armHdelAny, armHlenExtra,
      armSave, wellFormedArgs]

theorem ptOk_save (rest : List String) :
    (∃ c, parseTokens ("save" :: rest) = Except.ok c) ↔
      wellFormedArgs "save" rest = true := by
  rcases rest with _ | ⟨a, _ | ⟨b, _ | ⟨c, _ | ⟨d, _ | ⟨e, ts⟩⟩⟩⟩⟩ <;>
    simp [parseTokens, parseArms, applyArms, armSetEx, armSet3, armGet,
      armDel, armLpush, armRpush, armLrange, armHset, armHget, armHdel,
      armHlen, armHgetall, armSet1, armSet2, armSetAny, armGetDelAny,
      armLrangeAny, armHsetAny, armHgetAny, armHdelAny, armHlenExtra,
      armSave, wellFormedArgs]

theorem ptUnrecognized (v : String) (rest : List String)
    (hv : v ∉ recognizedVerbs) :
    parseTokens (v :: rest) = Except.error ParseError.unknownCommand := by
  simp only [recognizedVerbs, List.mem_cons, List.not_mem_nil, or_false,
    not_or] at hv
  obtain ⟨h1, h2, h3, h4, h5, h6, h7, h8, h9, h10, h11, h12, h13, h14, h15, h16, h17, h18, h19, h20, h21, h22, h23, h24⟩ := hv
  rcases rest with _ | ⟨a, _ | ⟨b, _ | ⟨c, _ | ⟨d, _ | ⟨e, ts⟩⟩⟩⟩⟩ <;>
    simp [parseTokens, parseArms, applyArms, armSetEx, armSet3, armGet,
      armDel, armLpush, armRpush, armLrange, armHset, armHget, armHdel,
      armHlen, armHgetall, armSet1, armSet2, armSetAny, armGetDelAny,
      armLrangeAny, armHsetAny, armHgetAny, armHdelAny, armHlenExtra,
      armSave, h1, h2, h3, h4, h5, h6, h7, h8, h9, h10, h11, h12, h13, h14, h15, h16, h17, h18, h19, h20, h21, h22, h23, h24]

/-- C2 amended: verb matching accepts exactly the all-uppercase and
    the all-lowercase spelling of each verb, interchangeably: for every
    argument token list, replacing the all-uppercase verb token by the
    all-lowercase one yields the same parse result, and any verb token
    outside these accepted spellings - in particular every other
    letter-case variant such as Get or gEt - yields UnknownCommand for
    every argument list. -/
theorem verb_case_matching (v : String) (rest : List String) :
    (parseTokens ("GET" :: rest) = parseTokens ("get" :: rest) ∧
      parseTokens ("SET" :: rest) = parseTokens ("set" :: rest) ∧
      parseTokens ("DEL" :: rest) = parseTokens ("del" :: rest) ∧
      parseTokens ("LPUSH" :: rest) = parseTokens ("lpush" :: rest) ∧
      parseTokens ("RPUSH" :: rest) = parseTokens ("rpush" :: rest) ∧
      parseTokens ("LRANGE" :: rest) = parseTokens ("lrange" :: rest) ∧
      parseTokens ("HSET" :: rest) = parseTokens ("hset" :: rest) ∧
      parseTokens ("HGET" :: rest) = parseTokens ("hget" :: rest) ∧
      parseTokens ("HDEL" :: rest) = parseTokens ("hdel" :: rest) ∧
      parseTokens ("HLEN" :: rest) = parseTokens ("hlen" :: rest) ∧
      parseTokens ("HGETALL" :: rest) = parseTokens ("hgetall" :: rest) ∧
      parseTokens ("SAVE" :: rest) = parseTokens ("save" :: rest)) ∧
    (v ∉ recognizedVerbs →
      parseTokens (v :: rest) = Except.error ParseError.unknownCommand) :=
  ⟨⟨ptPair_get rest, ptPair_set rest, ptPair_del rest, ptPair_lpush rest, ptPair_rpush rest, ptPair_lrange rest, ptPair_hset rest, ptPair_hget rest, ptPair_hdel rest, ptPair_hlen rest, ptPair_hgetall rest, ptPair_save rest⟩,
    fun hv => ptUnrecognized v rest hv⟩

/-- Witness for verb_case_matching at the mixed-case token "Get" with
    one argument. -/
theorem verb_case_matching_witness :
    (parseTokens ["GET", "k"] = parseTokens ["get", "k"] ∧
      parseTokens ["SET", "k"] = parseTokens ["set", "k"] ∧
      parseTokens ["DEL", "k"] = parseTokens ["del", "k"] ∧
      parseTokens ["LPUSH", "k"] = parseTokens ["lpush", "k"] ∧
      parseTokens ["RPUSH", "k"] = parseTokens ["rpush", "k"] ∧
      parseTokens ["LRANGE", "k"] = parseTokens ["lrange", "k"] ∧
      parseTokens ["HSET", "k"] = parseTokens ["hset", "k"] ∧
      parseTokens ["HGET", "k"] = parseTokens ["hget", "k"] ∧
      parseTokens ["HDEL", "k"] = parseTokens ["hdel", "k"] ∧
      parseTokens ["HLEN", "k"] = parseTokens ["hlen", "k"] ∧
      parseTokens ["HGETALL", "k"] = parseTokens ["hgetall", "k"] ∧
      parseTokens ["SAVE", "k"] = parseTokens ["save", "k"]) ∧
    parseTokens ["Get", "k"] = Except.error ParseError.unknownCommand :=
  ⟨(verb_case_matching "Get" ["k"]).1,
    (verb_case_matching "Get" ["k"]).2 (by decide)⟩

/-- C3 amended: for a token list headed by a recognized verb, the
    result is UnknownCommand exactly when the verb is SAVE with at least
    one extra token or a bare LPUSH, RPUSH or HLEN with no arguments; it
    is a successfully parsed command exactly when the argument list is
    well formed per the command table; consequently every other
    malformed argument list yields InvalidArgument carrying a usage
    message. -/
theorem recognized_verb_error_taxonomy (v : String) (rest : List String)
    (hv : v ∈ recognizedVerbs) :
    (parseTokens (v :: rest) = Except.error ParseError.unknownCommand ↔
      ((v = "SAVE" ∨ v = "save") ∧ rest ≠ []) ∨
      ((v = "LPUSH" ∨ v = "lpush" ∨ v = "RPUSH" ∨ v = "rpush" ∨
        v = "HLEN" ∨ v = "hlen") ∧ rest = [])) ∧
    ((∃ c, parseTokens (v :: rest) = Except.ok c) ↔
      wellFormedArgs v rest = true) ∧
    (wellFormedArgs v rest = false →
      ¬ (((v = "SAVE" ∨ v = "save") ∧ rest ≠ []) ∨
      ((v = "LPUSH" ∨ v = "lpush" ∨ v = "RPUSH" ∨ v = "rpush" ∨
        v = "HLEN" ∨ v = "hlen") ∧ rest = [])) →
      ∃ msg, parseTokens (v :: rest) =
        Except.error (ParseError.invalidArgument msg)) := by
  have h1 := ptUnknownIff v rest hv
  have h2 : (∃ c, parseTokens (v :: rest) = Except.ok c) ↔
      wellFormedArgs v rest = true := by
    have hv2 := hv
    simp only [recognizedVerbs, List.mem_cons, List.not_mem_nil,
      or_false] at hv2
    rcases hv2 with rfl | rfl | rfl | rfl | rfl | rfl | rfl | rfl | rfl |
      rfl | rfl | rfl | rfl | rfl | rfl | rfl | rfl | rfl | rfl | rfl |
      rfl | rfl | rfl | rfl
    · exact ptOk_GET rest
    · exact ptOk_get rest
    · exact ptOk_SET rest
    · exact ptOk_set rest
    · exact ptOk_DEL rest
    · exact ptOk_del rest
    · exact ptOk_LPUSH rest
    · exact ptOk_lpush rest
    · exact ptOk_RPUSH rest
    · exact ptOk_rpush rest
    · exact ptOk_LRANGE rest
    · exact ptOk_lrange rest
    · exact ptOk_HSET rest
    · exact ptOk_hset rest
    · exact ptOk_HGET rest
    · exact ptOk_hget rest
    · exact ptOk_HDEL rest
    · exact ptOk_hdel rest
    · exact ptOk_HLEN rest
    · exact ptOk_hlen rest
    · exact ptOk_HGETALL rest
    · exact ptOk_hgetall rest
    · exact ptOk_SAVE rest
    · exact ptOk_save rest
  refine ⟨h1, h2, fun hnw hne => ?_⟩
  cases hpt : parseTokens (v :: rest) with
  | ok c =>
    have := h2.mp ⟨c, hpt⟩
    rw [hnw] at this
    cases this
  | error e =>
    cases e with
    | unknownCommand => exact absurd (h1.mp hpt) hne
    | invalidArgument msg => exact ⟨msg, rfl⟩

/-- Witness for recognized_verb_error_taxonomy at the verb HSET with a
    single argument, a malformed non-exceptional input. -/
theorem recognized_verb_error_taxonomy_witness :
    ((parseTokens ["HSET", "k"] = Except.error ParseError.unknownCommand ↔
      ((("HSET" : String) = "SAVE" ∨ ("HSET" : String) = "save") ∧
        (["k"] : List String) ≠ []) ∨
      ((("HSET" : String) = "LPUSH" ∨ ("HSET" : String) = "lpush" ∨
        ("HSET" : String) = "RPUSH" ∨ ("HSET" : String) = "rpush" ∨
        ("HSET" : String) = "HLEN" ∨ ("HSET" : String) = "hlen") ∧
        (["k"] : List String) = [])) ∧
    ((∃ c, parseTokens ["HSET", "k"] = Except.ok c) ↔
      wellFormedArgs "HSET" ["k"] = true) ∧
    (wellFormedArgs "HSET" ["k"] = false →
      ¬ (((("HSET" : String) = "SAVE" ∨ ("HSET" : String) = "save") ∧
          (["k"] : List String) ≠ []) ∨
        ((("HSET" : String) = "LPUSH" ∨ ("HSET" : String) = "lpush" ∨
          ("HSET" : String) = "RPUSH" ∨ ("HSET" : String) = "rpush" ∨
          ("HSET" : String) = "HLEN" ∨ ("HSET" : String) = "hlen") ∧
          (["k"] : List String) = [])) →
      ∃ msg, parseTokens ["HSET", "k"] =
        Except.error (ParseError.invalidArgument msg))) ∧
    (∃ msg, parseTokens ["HSET", "k"] =
      Except.error (ParseError.invalidArgument msg)) :=
  ⟨recognized_verb_error_taxonomy "HSET" ["k"] (by decide),
    (recognized_verb_error_taxonomy "HSET" ["k"] (by decide)).2.2
      (by decide) (by decide)⟩

end IronCache
